import Mathlib

/-!
# GNSS sample (samples/nrf9160/gnss/src/main.c): event ingestion, hand-off and deferred work

A shallow embedding of `main.c`.  The three execution contexts of the sample (the GNSS event
handler, the work queue thread and the main poll loop) are embedded as state transformers over
one record of the file-scope variables; concurrency is an interleaving of these transformers.
Results of calls that leave the file (modem library, allocator, clock, assistance library) are
inputs of the transformers, and the calls themselves are appended to a trace.

Machine integers are natural numbers reduced explicitly where the C type wraps.
-/

namespace GnssSample

/-! ## Build-time parameters -/

/-- Build-time parameters of `main.c`: the Kconfig symbols tested by the preprocessor or by
`IS_ENABLED`, and the constants of `nrf_modem_gnss.h` and `lte_lc.h` the file uses (the headers
are not part of the sample, so their values are parameters). -/
structure Build where
  CONFIG_GNSS_SAMPLE_ASSISTANCE_NONE : Bool
  CONFIG_GNSS_SAMPLE_ASSISTANCE_SUPL : Bool
  CONFIG_GNSS_SAMPLE_ASSISTANCE_MINIMAL : Bool
  CONFIG_GNSS_SAMPLE_LTE_ON_DEMAND : Bool
  CONFIG_GNSS_SAMPLE_MODE_CONTINUOUS : Bool
  CONFIG_GNSS_SAMPLE_MODE_PERIODIC : Bool
  CONFIG_GNSS_SAMPLE_MODE_TTFF_TEST : Bool
  CONFIG_GNSS_SAMPLE_MODE_TTFF_TEST_COLD_START : Bool
  CONFIG_GNSS_SAMPLE_MODE_TTFF_TEST_INTERVAL : Nat
  CONFIG_GNSS_SAMPLE_PERIODIC_TIMEOUT : Nat
  CONFIG_GNSS_SAMPLE_PERIODIC_INTERVAL : Nat
  CONFIG_GNSS_SAMPLE_NMEA_ONLY : Bool
  CONFIG_GNSS_SAMPLE_LOW_ACCURACY : Bool
  CONFIG_GNSS_SAMPLE_LOG_LEVEL_OFF : Bool
  GNSS_SAMPLE_POWER_SAVING_MODERATE : Bool
  GNSS_SAMPLE_POWER_SAVING_HIGH : Bool
  NRF_MODEM_GNSS_MAX_SATELLITES : Nat
  NRF_MODEM_GNSS_SV_FLAG_USED_IN_FIX : Nat
  NRF_MODEM_GNSS_SV_FLAG_UNHEALTHY : Nat
  NRF_MODEM_GNSS_PVT_FLAG_FIX_VALID : Nat
  NRF_MODEM_GNSS_PVT_FLAG_DEADLINE_MISSED : Nat
  NRF_MODEM_GNSS_PVT_FLAG_NOT_ENOUGH_WINDOW_TIME : Nat
  NRF_MODEM_GNSS_PVT_FLAG_SLEEP_BETWEEN_PVT : Nat
  NRF_MODEM_GNSS_AGPS_GPS_UTC_REQUEST : Nat
  NRF_MODEM_GNSS_AGPS_KLOBUCHAR_REQUEST : Nat
  NRF_MODEM_GNSS_AGPS_SYS_TIME_AND_SV_TOW_REQUEST : Nat
  NRF_MODEM_GNSS_AGPS_POSITION_REQUEST : Nat
  NRF_MODEM_GNSS_AGPS_INTEGRITY_REQUEST : Nat
  NRF_MODEM_GNSS_DELETE_EPHEMERIDES : Nat
  NRF_MODEM_GNSS_DELETE_ALMANACS : Nat
  NRF_MODEM_GNSS_DELETE_IONO_CORRECTION_DATA : Nat
  NRF_MODEM_GNSS_DELETE_LAST_GOOD_FIX : Nat
  NRF_MODEM_GNSS_DELETE_GPS_TOW : Nat
  NRF_MODEM_GNSS_DELETE_GPS_WEEK : Nat
  NRF_MODEM_GNSS_DELETE_UTC_DATA : Nat
  NRF_MODEM_GNSS_DELETE_GPS_TOW_PRECISION : Nat
  NRF_MODEM_GNSS_NMEA_RMC_MASK : Nat
  NRF_MODEM_GNSS_NMEA_GGA_MASK : Nat
  NRF_MODEM_GNSS_NMEA_GLL_MASK : Nat
  NRF_MODEM_GNSS_NMEA_GSA_MASK : Nat
  NRF_MODEM_GNSS_NMEA_GSV_MASK : Nat
  NRF_MODEM_GNSS_USE_CASE_MULTIPLE_HOT_START : Nat
  NRF_MODEM_GNSS_USE_CASE_SCHED_DOWNLOAD_DISABLE : Nat
  NRF_MODEM_GNSS_USE_CASE_LOW_ACCURACY : Nat
  NRF_MODEM_GNSS_PSM_DISABLED : Nat
  NRF_MODEM_GNSS_PSM_DUTY_CYCLING_PERFORMANCE : Nat
  NRF_MODEM_GNSS_PSM_DUTY_CYCLING_POWER : Nat
deriving DecidableEq, Repr

/-! ## Data -/

/-- One entry of the `sv` array of a PVT frame: satellite id and its flags. -/
structure nrf_modem_gnss_sv where
  sv : Nat
  flags : Nat
deriving DecidableEq, Repr

/-- The PVT notification frame.  Only `flags` and `sv` are inspected by `main.c`; the position,
velocity, time and DOP fields are only printed and are kept together as `body`. -/
structure nrf_modem_gnss_pvt_data_frame where
  flags : Nat
  sv : List nrf_modem_gnss_sv
  body : Nat
deriving DecidableEq, Repr

/-- The A-GPS request frame. -/
structure nrf_modem_gnss_agps_data_frame where
  sv_mask_ephe : Nat
  sv_mask_alm : Nat
  data_flags : Nat
deriving DecidableEq, Repr

/-- The work items defined by `main.c`. -/
inductive WorkItem where
  | agps_data_get_work
  | ttff_test_got_fix_work
  | ttff_test_prepare_work
  | ttff_test_start_work
deriving DecidableEq, Repr

/-- Lines written with `printk` by the poll loop. -/
inductive Out where
  | clear_screen
  | satellite_stats (tracked in_fix unhealthy : Nat)
  | blocked_by_lte
  | insufficient_time_windows
  | sleep_between_pvt
  | separator
  | fix_data (pvt : nrf_modem_gnss_pvt_data_frame)
  | seconds_since_last_fix (secs : Nat)
  | searching (indicator : Nat)
  | nmea_header
  | nmea_str (str : String)
deriving DecidableEq, Repr

/-- Messages written with the `LOG_*` family. -/
inductive LogMsg where
  | failed_alloc_nmea
  | ignoring_only_integrity
  | ignoring_no_time_or_position
  | assistance_needed (ephe alm flags : Nat)
  | failed_request_assistance
  | connecting_lte
  | failed_activate_lte (err : Int)
  | failed_deactivate_lte (err : Int)
  | lte_disconnected
  | time_to_fix (secs : Nat)
  | time_blocked (count : Nat)
  | sleeping_for (secs : Nat)
  | deleting_gnss_data
  | failed_delete_gnss_data
  | starting_gnss
  | failed_start_gnss
  | failed_activate_gnss
  | failed_set_event_handler
  | failed_set_nmea_mask
  | failed_set_use_case
  | failed_set_power_mode
  | failed_set_fix_retry
  | failed_set_fix_interval
deriving DecidableEq, Repr

/-- Calls that leave `main.c`, in the order they are made. -/
inductive Ev where
  | log (m : LogMsg)
  | printk (o : Out)
  | k_free (p : Nat)
  | nrf_modem_gnss_start
  | nrf_modem_gnss_stop
  | nrf_modem_gnss_nv_data_delete (delete_mask : Nat)
  | nrf_modem_gnss_event_handler_set
  | nrf_modem_gnss_nmea_mask_set (nmea_mask : Nat)
  | nrf_modem_gnss_use_case_set (use_case : Nat)
  | nrf_modem_gnss_power_mode_set (power_mode : Nat)
  | nrf_modem_gnss_fix_retry_set (fix_retry : Nat)
  | nrf_modem_gnss_fix_interval_set (fix_interval : Nat)
  | lte_lc_func_mode_set_activate_lte
  | lte_lc_func_mode_set_deactivate_lte
  | lte_lc_func_mode_set_activate_gnss
  | k_sleep_seconds (secs : Nat)
  | assistance_request (req : nrf_modem_gnss_agps_data_frame)
deriving DecidableEq, Repr

/-! ## Kernel objects used by the sample -/

/-- A counting semaphore: current count and limit. -/
structure k_sem where
  count : Nat
  limit : Nat
deriving DecidableEq, Repr

/-- Modelled from the spec: the kernel's `k_sem_give` is not in the sample; section 4.1 gives
the ready flag as set on publish with no second pending notification, which is the kernel's
rule that the count is incremented unless it already equals the limit. -/
def k_sem_give (sem : k_sem) : k_sem :=
  { sem with count := sem.count + (if sem.count != sem.limit then 1 else 0) }

/-- The error value of a failed `k_sem_take` with `K_NO_WAIT`. -/
def EBUSY : Int := 16

/-- The error value of a failed `k_msgq_put` or `k_msgq_get` with `K_NO_WAIT`. -/
def ENOMSG : Int := 35

/-- Modelled from the spec: the kernel's `k_sem_take` with `K_NO_WAIT` is not in the sample;
section 4.1 (`try_consume`): when the flag is set it is cleared and the take succeeds (0),
otherwise nothing is obtained (`-EBUSY`). -/
def k_sem_take (sem : k_sem) : Int × k_sem :=
  if sem.count > 0 then (0, { sem with count := sem.count - 1 }) else (-EBUSY, sem)

/-- A message queue of pointers: capacity and the queued pointers, oldest first. -/
structure k_msgq where
  max_msgs : Nat
  msgs : List Nat
deriving DecidableEq, Repr

/-- Modelled from the spec: the kernel's `k_msgq_put` with `K_NO_WAIT` is not in the sample;
section 4.2 (`try_enqueue`): appends at the tail and returns 0 when fewer than `max_msgs`
messages are queued, otherwise fails (`-ENOMSG`) without blocking and without a change. -/
def k_msgq_put (q : k_msgq) (data : Nat) : Int × k_msgq :=
  if q.msgs.length < q.max_msgs then (0, { q with msgs := q.msgs ++ [data] }) else (-ENOMSG, q)

/-- Modelled from the spec: the kernel's `k_msgq_get` with `K_NO_WAIT` is not in the sample;
section 4.2: removes and returns the oldest message, or fails (`-ENOMSG`) on an empty queue. -/
def k_msgq_get (q : k_msgq) : Int × Option Nat × k_msgq :=
  match q.msgs with
  | [] => (-ENOMSG, none, q)
  | p :: rest => (0, some p, { q with msgs := rest })

/-- The kernel heap as the sample sees it: the live blocks with the `nmea_str` each holds, and
the address the next successful allocation returns.  Addresses are never reused, so an address
identifies one allocation. -/
structure Heap where
  next : Nat
  live : List (Nat × String)
deriving DecidableEq, Repr

/-- Modelled from the spec: the kernel's `k_malloc` is not in the sample; section 4.3: the
allocation either fails (`NULL`, here `none`) or yields a buffer that nothing else owns.
Whether it succeeds is an input; a fresh block holds the empty string. -/
def k_malloc (ok : Bool) (h : Heap) : Option Nat × Heap :=
  if ok then (some h.next, { next := h.next + 1, live := h.live ++ [(h.next, "")] })
  else (none, h)

/-- Modelled from the spec: the kernel's `k_free` is not in the sample; the block leaves the
set of live blocks. -/
def k_free (p : Nat) (h : Heap) : Heap :=
  { h with live := h.live.filter (fun e => e.1 != p) }

/-- Store a frame read from the modem into the block at `p`. -/
def Heap.store (h : Heap) (p : Nat) (str : String) : Heap :=
  { h with live := h.live.map (fun e => if e.1 == p then (p, str) else e) }

/-- Content of the `nmea_str` field of the block at `p`. -/
def Heap.load (h : Heap) (p : Nat) : String :=
  match h.live.find? (fun e => e.1 == p) with
  | some e => e.2
  | none => ""

/-- The pending entries of `gnss_work_q`, in submission order, each with its delay in ms. -/
abbrev k_work_q := List (WorkItem × Nat)

/-- Modelled from the spec: the kernel's `k_work_submit_to_queue` is not in the sample;
section 4.4: the item is appended to the FIFO of submitted tasks without delay; an item that is
already pending is not queued twice. -/
def k_work_submit_to_queue (q : k_work_q) (w : WorkItem) : k_work_q :=
  if q.any (fun e => e.1 == w) then q else q ++ [(w, 0)]

/-- Modelled from the spec: the kernel's `k_work_schedule_for_queue` is not in the sample;
section 4.4: the item is submitted with a minimum delay (ms); an item that is already scheduled
or pending is left as it is. -/
def k_work_schedule_for_queue (q : k_work_q) (w : WorkItem) (delay_ms : Nat) : k_work_q :=
  if q.any (fun e => e.1 == w) then q else q ++ [(w, delay_ms)]

/-- `K_MSEC(ms)` as a delay in milliseconds. -/
def K_MSEC (ms : Nat) : Nat := ms

/-- `K_SECONDS(s)` as a delay in milliseconds. -/
def K_SECONDS (s : Nat) : Nat := K_MSEC (s * 1000)

/-- `K_NO_WAIT` as a delay in milliseconds. -/
def K_NO_WAIT : Nat := 0

/-! ## The file-scope state -/

/-- The file-scope variables of `main.c`, the local `cnt` of `main`, the kernel heap, and the
trace of outside calls. -/
structure State where
  last_agps : nrf_modem_gnss_agps_data_frame
  requesting_assistance : Bool
  time_to_fix : Nat
  time_blocked : Nat
  last_pvt : nrf_modem_gnss_pvt_data_frame
  fix_timestamp : Nat
  nmea_queue : k_msgq
  pvt_data_sem : k_sem
  gnss_work_q : k_work_q
  heap : Heap
  cnt : Nat
  trace : List Ev
deriving DecidableEq, Repr

/-- The state at program start: zero-initialised variables, `K_MSGQ_DEFINE(nmea_queue, .., 10, 4)`
and `K_SEM_DEFINE(pvt_data_sem, 0, 1)`. -/
def State.init : State :=
  { last_agps := ⟨0, 0, 0⟩
    requesting_assistance := false
    time_to_fix := 0
    time_blocked := 0
    last_pvt := ⟨0, [], 0⟩
    fix_timestamp := 0
    nmea_queue := ⟨10, []⟩
    pvt_data_sem := ⟨0, 1⟩
    gnss_work_q := []
    heap := ⟨1, []⟩
    cnt := 0
    trace := [] }

/-- Append one outside call to the trace. -/
def State.emit (s : State) (e : Ev) : State := { s with trace := s.trace ++ [e] }

/-- Subtraction of `uint64_t` values. -/
def u64_sub (a b : Nat) : Nat := (a % 2 ^ 64 + 2 ^ 64 - b % 2 ^ 64) % 2 ^ 64

/-! ## The GNSS event handler -/

/-- The events `gnss_event_handler` distinguishes; `other` is the `default` case. -/
inductive GnssEvent where
  | NRF_MODEM_GNSS_EVT_PVT
  | NRF_MODEM_GNSS_EVT_FIX
  | NRF_MODEM_GNSS_EVT_NMEA
  | NRF_MODEM_GNSS_EVT_AGPS_REQ
  | other
deriving DecidableEq, Repr

/-- What the outside returns during one call of `gnss_event_handler`: the return value of
`nrf_modem_gnss_read` and the data it delivers when that value is 0, whether `k_malloc`
succeeds, and the value of `k_uptime_get()`. -/
structure HandlerEnv where
  read_retval : Int
  pvt : nrf_modem_gnss_pvt_data_frame
  nmea : String
  agps : nrf_modem_gnss_agps_data_frame
  malloc_ok : Bool
  uptime : Nat
deriving DecidableEq, Repr

/-- The `NRF_MODEM_GNSS_EVT_PVT` case (lines 78-83).  A failed read leaves `last_pvt` as it
was. -/
def gnss_event_handler_pvt (env : HandlerEnv) (s : State) : State :=
  let retval := env.read_retval
  if retval == 0 then
    { s with last_pvt := env.pvt, pvt_data_sem := k_sem_give s.pvt_data_sem }
  else s

/-- The `NRF_MODEM_GNSS_EVT_FIX` case (lines 86-94), compiled in TTFF test mode only. -/
def gnss_event_handler_fix (b : Build) (env : HandlerEnv) (s : State) : State :=
  let s := { s with time_to_fix := (u64_sub env.uptime s.fix_timestamp / 1000) % 2 ^ 32 }
  let q := k_work_schedule_for_queue s.gnss_work_q WorkItem.ttff_test_got_fix_work (K_MSEC 100)
  let s := { s with gnss_work_q := q }
  let interval := K_SECONDS b.CONFIG_GNSS_SAMPLE_MODE_TTFF_TEST_INTERVAL
  let q := k_work_schedule_for_queue s.gnss_work_q WorkItem.ttff_test_prepare_work interval
  { s with gnss_work_q := q }

/-- The `NRF_MODEM_GNSS_EVT_NMEA` case (lines 97-114). -/
def gnss_event_handler_nmea (env : HandlerEnv) (s : State) : State :=
  match k_malloc env.malloc_ok s.heap with
  | (none, _) => s.emit (Ev.log LogMsg.failed_alloc_nmea)
  | (some nmea_data, heap) =>
    let s := { s with heap := heap }
    let retval := env.read_retval
    let s := if retval == 0 then { s with heap := s.heap.store nmea_data env.nmea } else s
    let (retval, s) :=
      if retval == 0 then
        let r := k_msgq_put s.nmea_queue nmea_data
        (r.1, { s with nmea_queue := r.2 })
      else (retval, s)
    if retval != 0 then
      { s with heap := k_free nmea_data s.heap, trace := s.trace ++ [Ev.k_free nmea_data] }
    else s

/-- The `NRF_MODEM_GNSS_EVT_AGPS_REQ` case (lines 116-125). -/
def gnss_event_handler_agps_req (b : Build) (env : HandlerEnv) (s : State) : State :=
  if !b.CONFIG_GNSS_SAMPLE_ASSISTANCE_NONE then
    let retval := env.read_retval
    if retval == 0 then
      { s with last_agps := env.agps,
               gnss_work_q := k_work_submit_to_queue s.gnss_work_q WorkItem.agps_data_get_work }
    else s
  else s

/-- The function `gnss_event_handler` (lines 72-130). -/
def gnss_event_handler (b : Build) (env : HandlerEnv) (event : GnssEvent) (s : State) : State :=
  match event with
  | GnssEvent.NRF_MODEM_GNSS_EVT_PVT => gnss_event_handler_pvt env s
  | GnssEvent.NRF_MODEM_GNSS_EVT_FIX =>
    if b.CONFIG_GNSS_SAMPLE_MODE_TTFF_TEST then gnss_event_handler_fix b env s else s
  | GnssEvent.NRF_MODEM_GNSS_EVT_NMEA => gnss_event_handler_nmea env s
  | GnssEvent.NRF_MODEM_GNSS_EVT_AGPS_REQ => gnss_event_handler_agps_req b env s
  | GnssEvent.other => s

/-! ## The assistance work item -/

/-- What the outside returns during one run of `agps_data_get_work_fn`: the return values of the
two `lte_lc_func_mode_set` calls and of `assistance_request`, and whether the network
registration that `lte_connect` waits for with `K_FOREVER` ever arrives. -/
structure AgpsEnv where
  lte_activate_err : Int
  lte_registered : Bool
  assistance_request_err : Int
  lte_deactivate_err : Int
deriving DecidableEq, Repr

/-- The function `lte_connect` (lines 152-168).  The second component tells whether the
function returns: it is `false` when the wait on `lte_ready` with `K_FOREVER` never ends, and the
state is then the one at the wait. -/
def lte_connect (env : AgpsEnv) (s : State) : State × Bool :=
  let s := s.emit (Ev.log LogMsg.connecting_lte)
  let s := s.emit Ev.lte_lc_func_mode_set_activate_lte
  let err := env.lte_activate_err
  if err != 0 then
    (s.emit (Ev.log (LogMsg.failed_activate_lte err)), true)
  else if env.lte_registered then
    (s.emit (Ev.k_sleep_seconds 1), true)
  else (s, false)

/-- The function `lte_disconnect` (lines 170-181). -/
def lte_disconnect (env : AgpsEnv) (s : State) : State :=
  let s := s.emit Ev.lte_lc_func_mode_set_deactivate_lte
  let err := env.lte_deactivate_err
  if err != 0 then s.emit (Ev.log (LogMsg.failed_deactivate_lte err))
  else s.emit (Ev.log LogMsg.lte_disconnected)

/-- The test of lines 194-196, compiled with `CONFIG_GNSS_SAMPLE_ASSISTANCE_SUPL`. -/
def agps_only_integrity (b : Build) (req : nrf_modem_gnss_agps_data_frame) : Bool :=
  req.sv_mask_ephe == 0 && req.sv_mask_alm == 0 &&
    req.data_flags == b.NRF_MODEM_GNSS_AGPS_INTEGRITY_REQUEST

/-- The test of lines 206-207, compiled with `CONFIG_GNSS_SAMPLE_ASSISTANCE_MINIMAL`. -/
def agps_no_time_or_position (b : Build) (req : nrf_modem_gnss_agps_data_frame) : Bool :=
  !(req.data_flags &&& b.NRF_MODEM_GNSS_AGPS_SYS_TIME_AND_SV_TOW_REQUEST != 0) &&
    !(req.data_flags &&& b.NRF_MODEM_GNSS_AGPS_POSITION_REQUEST != 0)

/-- How far a run of `agps_data_get_work_fn` gets before `assistance_request` is entered. -/
inductive AgpsReach where
  | ignored (s : State)
  | blocked (s : State)
  | fetching (s : State)
deriving DecidableEq, Repr

/-- Lines 190-222 of `agps_data_get_work_fn`: `ignored` when one of the two early `return`s is
taken, `blocked` when `lte_connect` never returns (the state is the one the other contexts keep
seeing), `fetching` with the state in which `assistance_request` is entered. -/
def agps_data_get_work_fn_to_fetch (b : Build) (env : AgpsEnv) (s : State) : AgpsReach :=
  if b.CONFIG_GNSS_SAMPLE_ASSISTANCE_SUPL && agps_only_integrity b s.last_agps then
    AgpsReach.ignored (s.emit (Ev.log LogMsg.ignoring_only_integrity))
  else if b.CONFIG_GNSS_SAMPLE_ASSISTANCE_MINIMAL && agps_no_time_or_position b s.last_agps then
    AgpsReach.ignored (s.emit (Ev.log LogMsg.ignoring_no_time_or_position))
  else
    let s := { s with requesting_assistance := true }
    let s := s.emit (Ev.log (LogMsg.assistance_needed s.last_agps.sv_mask_ephe
      s.last_agps.sv_mask_alm s.last_agps.data_flags))
    if b.CONFIG_GNSS_SAMPLE_LTE_ON_DEMAND then
      let r := lte_connect env s
      if r.2 then AgpsReach.fetching r.1 else AgpsReach.blocked r.1
    else AgpsReach.fetching s

/-- Lines 224-233 of `agps_data_get_work_fn`: the call of `assistance_request` and what
follows it. -/
def agps_data_get_work_fn_from_fetch (b : Build) (env : AgpsEnv) (s : State) : State :=
  let s := s.emit (Ev.assistance_request s.last_agps)
  let err := env.assistance_request_err
  let s := if err != 0 then s.emit (Ev.log LogMsg.failed_request_assistance) else s
  let s := if b.CONFIG_GNSS_SAMPLE_LTE_ON_DEMAND then lte_disconnect env s else s
  { s with requesting_assistance := false }

/-- The function `agps_data_get_work_fn` (lines 184-234); `none` when it never returns. -/
def agps_data_get_work_fn (b : Build) (env : AgpsEnv) (s : State) : Option State :=
  match agps_data_get_work_fn_to_fetch b env s with
  | AgpsReach.ignored s1 => some s1
  | AgpsReach.blocked _ => none
  | AgpsReach.fetching s1 => some (agps_data_get_work_fn_from_fetch b env s1)

/-! ## The TTFF test work items -/

/-- The function `ttff_test_got_fix_work_fn` (lines 238-245). -/
def ttff_test_got_fix_work_fn (b : Build) (s : State) : State :=
  let s := s.emit (Ev.log (LogMsg.time_to_fix s.time_to_fix))
  let s := if s.time_blocked > 0 then s.emit (Ev.log (LogMsg.time_blocked s.time_blocked)) else s
  s.emit (Ev.log (LogMsg.sleeping_for b.CONFIG_GNSS_SAMPLE_MODE_TTFF_TEST_INTERVAL))

/-- The value of `delete_mask` computed by `ttff_test_force_cold_start` (lines 255-267). -/
def ttff_test_delete_mask (b : Build) : Nat :=
  let delete_mask := (b.NRF_MODEM_GNSS_DELETE_EPHEMERIDES |||
    b.NRF_MODEM_GNSS_DELETE_ALMANACS |||
    b.NRF_MODEM_GNSS_DELETE_IONO_CORRECTION_DATA |||
    b.NRF_MODEM_GNSS_DELETE_LAST_GOOD_FIX |||
    b.NRF_MODEM_GNSS_DELETE_GPS_TOW |||
    b.NRF_MODEM_GNSS_DELETE_GPS_WEEK |||
    b.NRF_MODEM_GNSS_DELETE_UTC_DATA |||
    b.NRF_MODEM_GNSS_DELETE_GPS_TOW_PRECISION) % 2 ^ 32
  if b.CONFIG_GNSS_SAMPLE_ASSISTANCE_MINIMAL then
    delete_mask &&& ((2 ^ 32 - 1) ^^^ (b.NRF_MODEM_GNSS_DELETE_ALMANACS % 2 ^ 32))
  else delete_mask

/-- The function `ttff_test_force_cold_start` (lines 247-276); `delete_err` is the return value
of `nrf_modem_gnss_nv_data_delete`. -/
def ttff_test_force_cold_start (b : Build) (delete_err : Int) (s : State) : Int × State :=
  let s := s.emit (Ev.log LogMsg.deleting_gnss_data)
  let s := s.emit (Ev.nrf_modem_gnss_nv_data_delete (ttff_test_delete_mask b))
  let err := delete_err
  if err != 0 then (-1, s.emit (Ev.log LogMsg.failed_delete_gnss_data))
  else (0, s)

/-- What the outside returns during one run of `ttff_test_prepare_work_fn`: the return values of
the modem calls in call order (stop; delete; start, stop). -/
structure PrepareEnv where
  stop_err : Int
  delete_err : Int
  trigger_start_err : Int
  trigger_stop_err : Int
deriving DecidableEq, Repr

/-- Lines 289-309 of `ttff_test_prepare_work_fn`, compiled unless
`CONFIG_GNSS_SAMPLE_ASSISTANCE_NONE`.  The return values of the start and stop calls are
discarded by the source. -/
def ttff_test_prepare_assistance (b : Build) (env : PrepareEnv) (s : State) : State :=
  let _ := (env.trigger_start_err, env.trigger_stop_err)
  if b.CONFIG_GNSS_SAMPLE_MODE_TTFF_TEST_COLD_START then
    let data_flags := b.NRF_MODEM_GNSS_AGPS_GPS_UTC_REQUEST |||
      b.NRF_MODEM_GNSS_AGPS_KLOBUCHAR_REQUEST |||
      b.NRF_MODEM_GNSS_AGPS_SYS_TIME_AND_SV_TOW_REQUEST |||
      b.NRF_MODEM_GNSS_AGPS_POSITION_REQUEST |||
      b.NRF_MODEM_GNSS_AGPS_INTEGRITY_REQUEST
    let s := { s with last_agps := ⟨0xffffffff, 0xffffffff, data_flags⟩ }
    { s with gnss_work_q := k_work_submit_to_queue s.gnss_work_q WorkItem.agps_data_get_work }
  else
    (s.emit Ev.nrf_modem_gnss_start).emit Ev.nrf_modem_gnss_stop

/-- The function `ttff_test_prepare_work_fn` (lines 278-312).  The return value `env.stop_err`
of the first `nrf_modem_gnss_stop()` is discarded by the source. -/
def ttff_test_prepare_work_fn (b : Build) (env : PrepareEnv) (s : State) : State :=
  let _ := env.stop_err
  let s := s.emit Ev.nrf_modem_gnss_stop
  let r := if b.CONFIG_GNSS_SAMPLE_MODE_TTFF_TEST_COLD_START then
      ttff_test_force_cold_start b env.delete_err s
    else (0, s)
  if r.1 != 0 then r.2
  else
    let s := r.2
    let s := if !b.CONFIG_GNSS_SAMPLE_ASSISTANCE_NONE then ttff_test_prepare_assistance b env s else s
    { s with gnss_work_q := k_work_submit_to_queue s.gnss_work_q WorkItem.ttff_test_start_work }

/-- What the outside returns during one run of `ttff_test_start_work_fn`. -/
structure StartEnv where
  start_err : Int
  uptime : Nat
deriving DecidableEq, Repr

/-- The function `ttff_test_start_work_fn` (lines 314-324). -/
def ttff_test_start_work_fn (env : StartEnv) (s : State) : State :=
  let s := s.emit (Ev.log LogMsg.starting_gnss)
  let s := s.emit Ev.nrf_modem_gnss_start
  if env.start_err != 0 then s.emit (Ev.log LogMsg.failed_start_gnss)
  else { s with fix_timestamp := env.uptime % 2 ^ 64, time_blocked := 0 }

/-! ## Start-up of the receiver -/

/-- Return values of the calls made by `gnss_init_and_start`, in call order. -/
structure InitEnv where
  func_mode_err : Int
  event_handler_err : Int
  nmea_mask_err : Int
  use_case_err : Int
  power_mode_err : Int
  fix_retry_err : Int
  fix_interval_err : Int
  start_err : Int
deriving DecidableEq, Repr

/-- The value of `nmea_mask` (lines 436-440), a `uint16_t`. -/
def gnss_nmea_mask (b : Build) : Nat :=
  (b.NRF_MODEM_GNSS_NMEA_RMC_MASK ||| b.NRF_MODEM_GNSS_NMEA_GGA_MASK |||
    b.NRF_MODEM_GNSS_NMEA_GLL_MASK ||| b.NRF_MODEM_GNSS_NMEA_GSA_MASK |||
    b.NRF_MODEM_GNSS_NMEA_GSV_MASK) % 2 ^ 16

/-- The value of `use_case` (lines 448-458), a `uint8_t`. -/
def gnss_use_case (b : Build) : Nat :=
  let use_case := b.NRF_MODEM_GNSS_USE_CASE_MULTIPLE_HOT_START % 2 ^ 8
  let use_case :=
    if b.CONFIG_GNSS_SAMPLE_MODE_PERIODIC && !b.CONFIG_GNSS_SAMPLE_ASSISTANCE_NONE then
      (use_case ||| b.NRF_MODEM_GNSS_USE_CASE_SCHED_DOWNLOAD_DISABLE) % 2 ^ 8
    else use_case
  if b.CONFIG_GNSS_SAMPLE_LOW_ACCURACY then
    (use_case ||| b.NRF_MODEM_GNSS_USE_CASE_LOW_ACCURACY) % 2 ^ 8
  else use_case

/-- The value of `power_mode` (lines 467-473), a `uint8_t`. -/
def gnss_power_mode (b : Build) : Nat :=
  if b.GNSS_SAMPLE_POWER_SAVING_MODERATE then b.NRF_MODEM_GNSS_PSM_DUTY_CYCLING_PERFORMANCE % 2 ^ 8
  else if b.GNSS_SAMPLE_POWER_SAVING_HIGH then b.NRF_MODEM_GNSS_PSM_DUTY_CYCLING_POWER % 2 ^ 8
  else b.NRF_MODEM_GNSS_PSM_DISABLED % 2 ^ 8

/-- The values of `fix_retry` and `fix_interval` (lines 482-492), both `uint16_t`. -/
def gnss_fix_retry_interval (b : Build) : Nat × Nat :=
  if b.CONFIG_GNSS_SAMPLE_MODE_PERIODIC then
    (b.CONFIG_GNSS_SAMPLE_PERIODIC_TIMEOUT % 2 ^ 16, b.CONFIG_GNSS_SAMPLE_PERIODIC_INTERVAL % 2 ^ 16)
  else if b.CONFIG_GNSS_SAMPLE_MODE_TTFF_TEST then (0, 0)
  else (0, 1)

/-- Lines 494-513 of `gnss_init_and_start`: fix retry and interval, then the first submission
of the prepare work item (TTFF test mode) or the start of the receiver. -/
def gnss_init_and_start_fix (b : Build) (env : InitEnv) (s : State) : Int × State :=
  let s := s.emit (Ev.nrf_modem_gnss_fix_retry_set (gnss_fix_retry_interval b).1)
  if env.fix_retry_err != 0 then (-1, s.emit (Ev.log LogMsg.failed_set_fix_retry)) else
  let s := s.emit (Ev.nrf_modem_gnss_fix_interval_set (gnss_fix_retry_interval b).2)
  if env.fix_interval_err != 0 then (-1, s.emit (Ev.log LogMsg.failed_set_fix_interval)) else
  if b.CONFIG_GNSS_SAMPLE_MODE_TTFF_TEST then
    let q := k_work_schedule_for_queue s.gnss_work_q WorkItem.ttff_test_prepare_work K_NO_WAIT
    (0, { s with gnss_work_q := q })
  else
    let s := s.emit Ev.nrf_modem_gnss_start
    if env.start_err != 0 then (-1, s.emit (Ev.log LogMsg.failed_start_gnss)) else (0, s)

/-- Lines 429-479 of `gnss_init_and_start` followed by `gnss_init_and_start_fix`: event
handler, NMEA mask, use case and power mode. -/
def gnss_init_and_start_configure (b : Build) (env : InitEnv) (s : State) : Int × State :=
  let s := s.emit Ev.nrf_modem_gnss_event_handler_set
  if env.event_handler_err != 0 then (-1, s.emit (Ev.log LogMsg.failed_set_event_handler)) else
  let s := s.emit (Ev.nrf_modem_gnss_nmea_mask_set (gnss_nmea_mask b))
  if env.nmea_mask_err != 0 then (-1, s.emit (Ev.log LogMsg.failed_set_nmea_mask)) else
  let s := s.emit (Ev.nrf_modem_gnss_use_case_set (gnss_use_case b))
  if env.use_case_err != 0 then (-1, s.emit (Ev.log LogMsg.failed_set_use_case)) else
  if b.CONFIG_GNSS_SAMPLE_MODE_CONTINUOUS then
    let s := s.emit (Ev.nrf_modem_gnss_power_mode_set (gnss_power_mode b))
    if env.power_mode_err != 0 then (-1, s.emit (Ev.log LogMsg.failed_set_power_mode))
    else gnss_init_and_start_fix b env s
  else gnss_init_and_start_fix b env s

/-- The function `gnss_init_and_start` (lines 419-514). -/
def gnss_init_and_start (b : Build) (env : InitEnv) (s : State) : Int × State :=
  if b.CONFIG_GNSS_SAMPLE_ASSISTANCE_NONE || b.CONFIG_GNSS_SAMPLE_LTE_ON_DEMAND then
    let s := s.emit Ev.lte_lc_func_mode_set_activate_gnss
    if env.func_mode_err != 0 then (-1, s.emit (Ev.log LogMsg.failed_activate_gnss))
    else gnss_init_and_start_configure b env s
  else gnss_init_and_start_configure b env s

/-! ## The poll loop of `main` -/

/-- What the outside returns during one iteration of the loop of `main`: the value of
`k_uptime_get()` and of `assistance_is_active()`. -/
structure PollEnv where
  uptime : Nat
  assistance_is_active : Bool
deriving DecidableEq, Repr

/-- The function `output_paused` (lines 516-523). -/
def output_paused (b : Build) (env : PollEnv) (s : State) : Bool :=
  if b.CONFIG_GNSS_SAMPLE_ASSISTANCE_NONE || b.CONFIG_GNSS_SAMPLE_LOG_LEVEL_OFF then false
  else if s.requesting_assistance || env.assistance_is_active then true else false

/-- The function `print_satellite_stats` (lines 525-546); the three counters are `uint8_t`. -/
def print_satellite_stats (b : Build) (pvt_data : nrf_modem_gnss_pvt_data_frame) : Out :=
  let svs := (pvt_data.sv.take b.NRF_MODEM_GNSS_MAX_SATELLITES).filter (fun e => e.sv > 0)
  let tracked := svs.length % 2 ^ 8
  let in_fix := (svs.filter
    (fun e => e.flags &&& b.NRF_MODEM_GNSS_SV_FLAG_USED_IN_FIX != 0)).length % 2 ^ 8
  let unhealthy := (svs.filter
    (fun e => e.flags &&& b.NRF_MODEM_GNSS_SV_FLAG_UNHEALTHY != 0)).length % 2 ^ 8
  Out.satellite_stats tracked in_fix unhealthy

/-- Test of one flag of a PVT frame, `flags & mask` as a C condition. -/
def pvt_flag (pvt : nrf_modem_gnss_pvt_data_frame) (mask : Nat) : Bool :=
  pvt.flags &&& mask != 0

/-- Lines 605-631 of `main`: the rendering of a new PVT frame. -/
def main_render_pvt (b : Build) (env : PollEnv) (s : State) : State :=
  let s := s.emit (Ev.printk Out.clear_screen)
  let s := s.emit (Ev.printk (print_satellite_stats b s.last_pvt))
  let s := if pvt_flag s.last_pvt b.NRF_MODEM_GNSS_PVT_FLAG_DEADLINE_MISSED then
      s.emit (Ev.printk Out.blocked_by_lte) else s
  let s := if pvt_flag s.last_pvt b.NRF_MODEM_GNSS_PVT_FLAG_NOT_ENOUGH_WINDOW_TIME then
      s.emit (Ev.printk Out.insufficient_time_windows) else s
  let s := if pvt_flag s.last_pvt b.NRF_MODEM_GNSS_PVT_FLAG_SLEEP_BETWEEN_PVT then
      s.emit (Ev.printk Out.sleep_between_pvt) else s
  let s := s.emit (Ev.printk Out.separator)
  let s :=
    if pvt_flag s.last_pvt b.NRF_MODEM_GNSS_PVT_FLAG_FIX_VALID then
      let s := { s with fix_timestamp := env.uptime % 2 ^ 64 }
      s.emit (Ev.printk (Out.fix_data s.last_pvt))
    else
      let s := s.emit (Ev.printk
        (Out.seconds_since_last_fix (u64_sub env.uptime s.fix_timestamp / 1000)))
      let s := { s with cnt := (s.cnt + 1) % 2 ^ 8 }
      s.emit (Ev.printk (Out.searching (s.cnt % 4)))
  s.emit (Ev.printk Out.nmea_header)

/-- Lines 601-640 of `main`: what is done once `k_sem_take` has succeeded. -/
def main_new_pvt (b : Build) (env : PollEnv) (s : State) : State :=
  if !b.CONFIG_GNSS_SAMPLE_NMEA_ONLY && !output_paused b env s then
    main_render_pvt b env s
  else if b.CONFIG_GNSS_SAMPLE_MODE_TTFF_TEST then
    if pvt_flag s.last_pvt b.NRF_MODEM_GNSS_PVT_FLAG_DEADLINE_MISSED then
      { s with time_blocked := (s.time_blocked + 1) % 2 ^ 32 }
    else s
  else s

/-- Lines 644-649 of `main`: what is done with a dequeued frame pointer. -/
def main_new_nmea (b : Build) (env : PollEnv) (nmea_data : Nat) (s : State) : State :=
  let s := if !output_paused b env s then
      s.emit (Ev.printk (Out.nmea_str (s.heap.load nmea_data))) else s
  { s with heap := k_free nmea_data s.heap, trace := s.trace ++ [Ev.k_free nmea_data] }

/-- Modelled from the spec: the kernel's `k_poll` is not in the sample; section 4.5 step 1: the
two conditions reported are "the semaphore is available" and "the queue holds data". -/
def k_poll (s : State) : Bool × Bool :=
  (decide (s.pvt_data_sem.count > 0), !s.nmea_queue.msgs.isEmpty)

/-- What one iteration of the loop consumed: the snapshot found in `last_pvt` when the take of
`pvt_data_sem` succeeded, the value of `output_paused()` in that iteration, and the pointer
taken from `nmea_queue` with the string it points to. -/
structure PollObs where
  pvt : Option nrf_modem_gnss_pvt_data_frame
  paused : Bool
  nmea : Option (Nat × String)
deriving DecidableEq, Repr

/-- Lines 599-641 of `main`: the first `if` of the loop body. -/
def main_loop_pvt (b : Build) (env : PollEnv) (ev0 : Bool) (s : State) :
    State × Option nrf_modem_gnss_pvt_data_frame :=
  if ev0 then
    let r := k_sem_take s.pvt_data_sem
    let s := { s with pvt_data_sem := r.2 }
    if r.1 == 0 then (main_new_pvt b env s, some s.last_pvt) else (s, none)
  else (s, none)

/-- Lines 642-650 of `main`: the second `if` of the loop body. -/
def main_loop_nmea (b : Build) (env : PollEnv) (ev1 : Bool) (s : State) :
    State × Option (Nat × String) :=
  if ev1 then
    match k_msgq_get s.nmea_queue with
    | (_, some nmea_data, q) =>
      let s := { s with nmea_queue := q }
      (main_new_nmea b env nmea_data s, some (nmea_data, s.heap.load nmea_data))
    | (_, none, q) => ({ s with nmea_queue := q }, none)
  else (s, none)

/-- One iteration of the `for (;;)` loop of `main` (lines 596-654).  With neither condition
ready `k_poll(.., K_FOREVER)` does not return and the iteration does nothing. -/
def main_loop_iteration (b : Build) (env : PollEnv) (s : State) : State × PollObs :=
  let events := k_poll s
  if !events.1 && !events.2 then (s, ⟨none, output_paused b env s, none⟩)
  else
    let r0 := main_loop_pvt b env events.1 s
    let r1 := main_loop_nmea b env events.2 r0.1
    (r1.1, ⟨r0.2, output_paused b env s, r1.2⟩)

/-! ## Interleavings -/

/-- The work queue thread takes `w` off the pending entries before it runs the handler. -/
def k_work_q_take (q : k_work_q) (w : WorkItem) : k_work_q :=
  q.filter (fun e => e.1 != w)

/-- One atomic step of one of the three contexts: an event delivered to `gnss_event_handler`,
an iteration of the loop of `main`, or the work queue thread running a handler.  The run of
`agps_data_get_work_fn` is two steps, up to the call of `assistance_request` and from it, since
that call lasts long and the other contexts run meanwhile. -/
inductive Step where
  | event (env : HandlerEnv) (e : GnssEvent)
  | poll (env : PollEnv)
  | agps_to_fetch (env : AgpsEnv)
  | agps_from_fetch (env : AgpsEnv)
  | ttff_prepare (env : PrepareEnv)
  | ttff_start (env : StartEnv)
  | ttff_got_fix
deriving DecidableEq, Repr

/-- Remove `w` from the pending entries of `gnss_work_q`. -/
def State.take_work (s : State) (w : WorkItem) : State :=
  { s with gnss_work_q := k_work_q_take s.gnss_work_q w }

/-- The state after one step.  A work item handler runs whether or not its item is pending, so
the sequences of steps include all those the kernel allows; the start-up code of `main` before the
loop is not a step. -/
def step (b : Build) (st : Step) (s : State) : State :=
  match st with
  | Step.event env e => gnss_event_handler b env e s
  | Step.poll env => (main_loop_iteration b env s).1
  | Step.agps_to_fetch env =>
    match agps_data_get_work_fn_to_fetch b env (s.take_work WorkItem.agps_data_get_work) with
    | AgpsReach.ignored s1 => s1
    | AgpsReach.blocked s1 => s1
    | AgpsReach.fetching s1 => s1
  | Step.agps_from_fetch env => agps_data_get_work_fn_from_fetch b env s
  | Step.ttff_prepare env =>
    ttff_test_prepare_work_fn b env (s.take_work WorkItem.ttff_test_prepare_work)
  | Step.ttff_start env => ttff_test_start_work_fn env (s.take_work WorkItem.ttff_test_start_work)
  | Step.ttff_got_fix => ttff_test_got_fix_work_fn b (s.take_work WorkItem.ttff_test_got_fix_work)

/-- The state after a sequence of steps. -/
def run (b : Build) (steps : List Step) (s : State) : State :=
  steps.foldl (fun acc st => step b st acc) s

/-- The observations of the loop of `main` along a sequence of steps, one for each iteration. -/
def observations (b : Build) : List Step → State → List PollObs
  | [], _ => []
  | Step.poll env :: rest, s =>
    (main_loop_iteration b env s).2 :: observations b rest (step b (Step.poll env) s)
  | st :: rest, s => observations b rest (step b st s)

/-- A sequence of `NRF_MODEM_GNSS_EVT_PVT` events, one for each handler environment. -/
def pvt_events (envs : List HandlerEnv) : List Step :=
  envs.map (fun e => Step.event e GnssEvent.NRF_MODEM_GNSS_EVT_PVT)

/-- A sequence of `NRF_MODEM_GNSS_EVT_NMEA` events, one for each handler environment. -/
def nmea_events (envs : List HandlerEnv) : List Step :=
  envs.map (fun e => Step.event e GnssEvent.NRF_MODEM_GNSS_EVT_NMEA)

/-- A build for the concrete instances: TTFF test mode with cold start, SUPL assistance,
NMEA-only output, a test interval of 120 s, and the constants of `nrf_modem_gnss.h`. -/
def Build.sample : Build :=
  { CONFIG_GNSS_SAMPLE_ASSISTANCE_NONE := false
    CONFIG_GNSS_SAMPLE_ASSISTANCE_SUPL := true
    CONFIG_GNSS_SAMPLE_ASSISTANCE_MINIMAL := false
    CONFIG_GNSS_SAMPLE_LTE_ON_DEMAND := false
    CONFIG_GNSS_SAMPLE_MODE_CONTINUOUS := false
    CONFIG_GNSS_SAMPLE_MODE_PERIODIC := false
    CONFIG_GNSS_SAMPLE_MODE_TTFF_TEST := true
    CONFIG_GNSS_SAMPLE_MODE_TTFF_TEST_COLD_START := true
    CONFIG_GNSS_SAMPLE_MODE_TTFF_TEST_INTERVAL := 120
    CONFIG_GNSS_SAMPLE_PERIODIC_TIMEOUT := 120
    CONFIG_GNSS_SAMPLE_PERIODIC_INTERVAL := 600
    CONFIG_GNSS_SAMPLE_NMEA_ONLY := true
    CONFIG_GNSS_SAMPLE_LOW_ACCURACY := false
    CONFIG_GNSS_SAMPLE_LOG_LEVEL_OFF := false
    GNSS_SAMPLE_POWER_SAVING_MODERATE := false
    GNSS_SAMPLE_POWER_SAVING_HIGH := false
    NRF_MODEM_GNSS_MAX_SATELLITES := 12
    NRF_MODEM_GNSS_SV_FLAG_USED_IN_FIX := 0x02
    NRF_MODEM_GNSS_SV_FLAG_UNHEALTHY := 0x08
    NRF_MODEM_GNSS_PVT_FLAG_FIX_VALID := 0x01
    NRF_MODEM_GNSS_PVT_FLAG_DEADLINE_MISSED := 0x08
    NRF_MODEM_GNSS_PVT_FLAG_NOT_ENOUGH_WINDOW_TIME := 0x10
    NRF_MODEM_GNSS_PVT_FLAG_SLEEP_BETWEEN_PVT := 0x04
    NRF_MODEM_GNSS_AGPS_GPS_UTC_REQUEST := 0x01
    NRF_MODEM_GNSS_AGPS_KLOBUCHAR_REQUEST := 0x02
    NRF_MODEM_GNSS_AGPS_SYS_TIME_AND_SV_TOW_REQUEST := 0x08
    NRF_MODEM_GNSS_AGPS_POSITION_REQUEST := 0x10
    NRF_MODEM_GNSS_AGPS_INTEGRITY_REQUEST := 0x20
    NRF_MODEM_GNSS_DELETE_EPHEMERIDES := 0x001
    NRF_MODEM_GNSS_DELETE_ALMANACS := 0x002
    NRF_MODEM_GNSS_DELETE_IONO_CORRECTION_DATA := 0x004
    NRF_MODEM_GNSS_DELETE_LAST_GOOD_FIX := 0x008
    NRF_MODEM_GNSS_DELETE_GPS_TOW := 0x010
    NRF_MODEM_GNSS_DELETE_GPS_WEEK := 0x020
    NRF_MODEM_GNSS_DELETE_UTC_DATA := 0x040
    NRF_MODEM_GNSS_DELETE_GPS_TOW_PRECISION := 0x080
    NRF_MODEM_GNSS_NMEA_RMC_MASK := 0x10
    NRF_MODEM_GNSS_NMEA_GGA_MASK := 0x01
    NRF_MODEM_GNSS_NMEA_GLL_MASK := 0x02
    NRF_MODEM_GNSS_NMEA_GSA_MASK := 0x04
    NRF_MODEM_GNSS_NMEA_GSV_MASK := 0x08
    NRF_MODEM_GNSS_USE_CASE_MULTIPLE_HOT_START := 0x01
    NRF_MODEM_GNSS_USE_CASE_SCHED_DOWNLOAD_DISABLE := 0x02
    NRF_MODEM_GNSS_USE_CASE_LOW_ACCURACY := 0x04
    NRF_MODEM_GNSS_PSM_DISABLED := 0
    NRF_MODEM_GNSS_PSM_DUTY_CYCLING_PERFORMANCE := 1
    NRF_MODEM_GNSS_PSM_DUTY_CYCLING_POWER := 2 }

/-- A handler environment in which the read succeeds and delivers the given PVT flags and body,
NMEA string and request, and the allocation succeeds. -/
def HandlerEnv.ok (flags body : Nat) (nmea : String) (uptime : Nat) : HandlerEnv :=
  { read_retval := 0
    pvt := ⟨flags, [], body⟩
    nmea := nmea
    agps := ⟨0, 0, 0⟩
    malloc_ok := true
    uptime := uptime }

/-- A state as at program start but with a queue of capacity 3. -/
def State.init3 : State := { State.init with nmea_queue := ⟨3, []⟩ }

/-- The sample build without cold start. -/
def Build.warm : Build :=
  { Build.sample with CONFIG_GNSS_SAMPLE_MODE_TTFF_TEST_COLD_START := false }

/-- Whether the iteration with observation `o` consumed a fix update and rendered it: the
condition of line 603 held. -/
def PollObs.rendered (b : Build) (o : PollObs) : Bool :=
  o.pvt.isSome && !b.CONFIG_GNSS_SAMPLE_NMEA_ONLY && !o.paused

/-- Whether the iteration with observation `o` consumed a fix update carrying the flag `mask`. -/
def PollObs.has_flag (o : PollObs) (mask : Nat) : Bool :=
  match o.pvt with
  | some pvt => pvt_flag pvt mask
  | none => false

/-- Number of consumed fix updates that carry the "deadline missed" flag and were not rendered
(the NMEA-only option is set, or the output was paused in that iteration). -/
def blocked_updates (b : Build) (obs : List PollObs) : Nat :=
  (obs.filter (fun o => o.has_flag b.NRF_MODEM_GNSS_PVT_FLAG_DEADLINE_MISSED &&
    !o.rendered b)).length

/-- Whether a step is a run of the TTFF start work item in which the receiver starts. -/
def Step.is_start_ok : Step → Bool
  | Step.ttff_start env => env.start_err == 0
  | _ => false

/-- The `assistance_request` calls of a trace, in order, each with its argument. -/
def assistance_requests (tr : List Ev) : List nrf_modem_gnss_agps_data_frame :=
  tr.filterMap (fun e => match e with
    | Ev.assistance_request req => some req
    | _ => none)

/-- The pending entries of the work queue that belong to the TTFF test (every item but
`agps_data_get_work`). -/
def ttff_entries (q : k_work_q) : k_work_q :=
  q.filter (fun e => e.1 != WorkItem.agps_data_get_work)

/-- Steps that are neither the milestone event nor one of the three TTFF work items: other
events, loop iterations and the assistance work item. -/
def Step.is_neutral : Step → Bool
  | Step.event _ e => e != GnssEvent.NRF_MODEM_GNSS_EVT_FIX
  | Step.poll _ => true
  | Step.agps_to_fetch _ => true
  | Step.agps_from_fetch _ => true
  | _ => false

/-- The start-up environment in which every call succeeds. -/
def InitEnv.ok : InitEnv := ⟨0, 0, 0, 0, 0, 0, 0, 0⟩

theorem run_nil (b : Build) (s : State) : run b [] s = s := rfl

theorem run_cons (b : Build) (st : Step) (rest : List Step) (s : State) :
    run b (st :: rest) s = run b rest (step b st s) := rfl

theorem run_append (b : Build) (xs ys : List Step) (s : State) :
    run b (xs ++ ys) s = run b ys (run b xs s) := by
  simp [run, List.foldl_append]

/-! ## The fix slot -/

theorem k_sem_give_limit (sem : k_sem) : (k_sem_give sem).limit = sem.limit := rfl

theorem k_sem_give_count_le (sem : k_sem) (h : sem.count ≤ sem.limit) :
    (k_sem_give sem).count ≤ sem.limit := by
  unfold k_sem_give
  by_cases hc : sem.count = sem.limit
  · simp [hc]
  · simp [hc]; omega

theorem pvt_events_sem (b : Build) (envs : List HandlerEnv) (s : State)
    (hlim : s.pvt_data_sem.limit = 1) (hcnt : s.pvt_data_sem.count ≤ 1) :
    (run b (pvt_events envs) s).pvt_data_sem.limit = 1 ∧
      (run b (pvt_events envs) s).pvt_data_sem.count ≤ 1 := by
  induction envs generalizing s with
  | nil => exact ⟨hlim, hcnt⟩
  | cons e rest ih =>
    simp only [pvt_events, List.map_cons, run_cons]
    apply ih
    · simp only [step, gnss_event_handler, gnss_event_handler_pvt]
      split <;> simp [k_sem_give_limit, hlim]
    · simp only [step, gnss_event_handler, gnss_event_handler_pvt]
      split
      · have := k_sem_give_count_le s.pvt_data_sem (by omega)
        simpa [hlim] using this
      · exact hcnt

theorem pvt_event_ok (b : Build) (e : HandlerEnv) (s : State) (hread : e.read_retval = 0)
    (hlim : s.pvt_data_sem.limit = 1) (hcnt : s.pvt_data_sem.count ≤ 1) :
    (step b (Step.event e GnssEvent.NRF_MODEM_GNSS_EVT_PVT) s).pvt_data_sem = ⟨1, 1⟩ ∧
      (step b (Step.event e GnssEvent.NRF_MODEM_GNSS_EVT_PVT) s).last_pvt = e.pvt := by
  simp only [step, gnss_event_handler, gnss_event_handler_pvt, hread]
  simp only [beq_self_eq_true, if_true, and_true]
  unfold k_sem_give
  rcases hs : s.pvt_data_sem with ⟨c, l⟩
  rw [hs] at hlim hcnt
  simp only at hlim hcnt
  subst hlim
  interval_cases c <;> simp

theorem main_loop_pvt_sem_one (b : Build) (env : PollEnv) (s : State)
    (h : s.pvt_data_sem = ⟨1, 1⟩) :
    (main_loop_pvt b env true s).2 = some s.last_pvt ∧
      (main_loop_pvt b env true s).1.pvt_data_sem = ⟨0, 1⟩ := by
  simp only [main_loop_pvt, k_sem_take, h]
  simp [main_new_pvt, main_render_pvt, State.emit]
  split_ifs <;> simp

theorem main_loop_nmea_sem (b : Build) (env : PollEnv) (ev1 : Bool) (s : State) :
    (main_loop_nmea b env ev1 s).1.pvt_data_sem = s.pvt_data_sem := by
  unfold main_loop_nmea
  cases ev1
  · rfl
  · rcases hq : s.nmea_queue with ⟨mx, msgs⟩
    cases msgs with
    | nil => simp [k_msgq_get, hq]
    | cons p rest =>
      simp only [if_true, k_msgq_get, hq, main_new_nmea, State.emit]
      split_ifs <;> rfl

theorem main_loop_iteration_sem_one (b : Build) (env : PollEnv) (s : State)
    (h : s.pvt_data_sem = ⟨1, 1⟩) :
    (main_loop_iteration b env s).2.pvt = some s.last_pvt ∧
      (main_loop_iteration b env s).1.pvt_data_sem = ⟨0, 1⟩ := by
  have hp := main_loop_pvt_sem_one b env s h
  simp only [main_loop_iteration, k_poll, h]
  simp [main_loop_nmea_sem, hp.1, hp.2]

theorem main_loop_iteration_sem_zero (b : Build) (env : PollEnv) (s : State)
    (h : s.pvt_data_sem.count = 0) :
    (main_loop_iteration b env s).2.pvt = none := by
  simp only [main_loop_iteration, k_poll, h]
  simp only [gt_iff_lt, lt_self_iff_false, decide_False, Bool.not_false, Bool.true_and]
  split <;> simp [main_loop_pvt]

/-- C1 (fix slot coalescing).  After a non-empty sequence `envs ++ [last]` of
`NRF_MODEM_GNSS_EVT_PVT` events whose reads succeed, handled with no loop iteration in between:
the count of `pvt_data_sem` never exceeded 1 along the way, the next `k_sem_take` succeeds, the
loop iteration that consumes finds the snapshot of the last event in `last_pvt`, and a second
iteration (and a second `k_sem_take`) obtains nothing. -/
theorem fix_slot_coalescing (b : Build) (s : State) (envs : List HandlerEnv) (last : HandlerEnv)
    (p1 p2 : PollEnv) (hlim : s.pvt_data_sem.limit = 1) (hcnt : s.pvt_data_sem.count ≤ 1)
    (hread : ∀ e ∈ envs ++ [last], e.read_retval = 0) :
    (∀ n, (run b (pvt_events ((envs ++ [last]).take n)) s).pvt_data_sem.count ≤ 1) ∧
    (k_sem_take (run b (pvt_events (envs ++ [last])) s).pvt_data_sem).1 = 0 ∧
    (main_loop_iteration b p1 (run b (pvt_events (envs ++ [last])) s)).2.pvt = some last.pvt ∧
    (k_sem_take
      (main_loop_iteration b p1 (run b (pvt_events (envs ++ [last])) s)).1.pvt_data_sem).1
        = -EBUSY ∧
    (main_loop_iteration b p2
      (main_loop_iteration b p1 (run b (pvt_events (envs ++ [last])) s)).1).2.pvt = none := by
  have hpre := pvt_events_sem b envs s hlim hcnt
  have hlast := pvt_event_ok b last (run b (pvt_events envs) s)
    (hread last (by simp)) hpre.1 hpre.2
  have hrun : run b (pvt_events (envs ++ [last])) s
      = step b (Step.event last GnssEvent.NRF_MODEM_GNSS_EVT_PVT) (run b (pvt_events envs) s) := by
    simp [pvt_events, run_append, run_cons, run_nil]
  have hit := main_loop_iteration_sem_one b p1 _ hlast.1
  rw [hrun]
  refine ⟨fun n => (pvt_events_sem b _ s hlim hcnt).2, ?_, ?_, ?_, ?_⟩
  · rw [hlast.1]; rfl
  · rw [hit.1, hlast.2]
  · rw [hit.2]; rfl
  · exact main_loop_iteration_sem_zero b p2 _ (by rw [hit.2])

/-- Instance of C1: two PVT events in a row from the start state; the loop then sees the second
snapshot only. -/
theorem fix_slot_coalescing_witness :
    (main_loop_iteration Build.sample ⟨0, false⟩
      (run Build.sample (pvt_events ([HandlerEnv.ok 0 7 "" 0] ++ [HandlerEnv.ok 0 8 "" 0]))
        State.init)).2.pvt = some ⟨0, [], 8⟩ ∧
    (main_loop_iteration Build.sample ⟨0, false⟩
      (main_loop_iteration Build.sample ⟨0, false⟩
        (run Build.sample (pvt_events ([HandlerEnv.ok 0 7 "" 0] ++ [HandlerEnv.ok 0 8 "" 0]))
          State.init)).1).2.pvt = none :=
  have h := fix_slot_coalescing Build.sample State.init [HandlerEnv.ok 0 7 "" 0]
    (HandlerEnv.ok 0 8 "" 0) ⟨0, false⟩ ⟨0, false⟩ rfl (by decide)
    (by intro e he; simp at he; rcases he with rfl | rfl <;> rfl)
  ⟨h.2.2.1, h.2.2.2.2⟩

/-! ## The frame queue -/

theorem emit_nmea_queue (s : State) (e : Ev) : (s.emit e).nmea_queue = s.nmea_queue := rfl

theorem gnss_event_handler_nmea_queue (env : HandlerEnv) (s : State) :
    (gnss_event_handler_nmea env s).nmea_queue = s.nmea_queue ∨
      (s.nmea_queue.msgs.length < s.nmea_queue.max_msgs ∧ env.malloc_ok = true ∧
        env.read_retval = 0 ∧
        (gnss_event_handler_nmea env s).nmea_queue
          = ⟨s.nmea_queue.max_msgs, s.nmea_queue.msgs ++ [s.heap.next]⟩) := by
  unfold gnss_event_handler_nmea k_malloc
  cases hm : env.malloc_ok
  · left; rfl
  · by_cases hr : env.read_retval = 0
    · by_cases hq : s.nmea_queue.msgs.length < s.nmea_queue.max_msgs
      · right
        simp [hr, hq, k_msgq_put]
      · left
        simp [hr, hq, k_msgq_put, ENOMSG]
    · left
      simp [hr]

theorem event_nmea_queue_other (b : Build) (env : HandlerEnv) (e : GnssEvent) (s : State)
    (he : e ≠ GnssEvent.NRF_MODEM_GNSS_EVT_NMEA) :
    (gnss_event_handler b env e s).nmea_queue = s.nmea_queue := by
  cases e
  · simp only [gnss_event_handler, gnss_event_handler_pvt]; split <;> rfl
  · simp only [gnss_event_handler, gnss_event_handler_fix]; split <;> rfl
  · exact absurd rfl he
  · simp only [gnss_event_handler, gnss_event_handler_agps_req]; split_ifs <;> rfl
  · rfl

theorem main_new_pvt_nmea_queue (b : Build) (env : PollEnv) (s : State) :
    (main_new_pvt b env s).nmea_queue = s.nmea_queue := by
  unfold main_new_pvt main_render_pvt
  simp only [State.emit]
  split_ifs <;> rfl

theorem main_loop_pvt_nmea_queue (b : Build) (env : PollEnv) (ev0 : Bool) (s : State) :
    (main_loop_pvt b env ev0 s).1.nmea_queue = s.nmea_queue := by
  unfold main_loop_pvt
  dsimp only
  split_ifs <;> simp [main_new_pvt_nmea_queue]

theorem main_loop_nmea_queue (b : Build) (env : PollEnv) (ev1 : Bool) (s : State) :
    (main_loop_nmea b env ev1 s).1.nmea_queue.max_msgs = s.nmea_queue.max_msgs ∧
      (main_loop_nmea b env ev1 s).1.nmea_queue.msgs.length ≤ s.nmea_queue.msgs.length := by
  unfold main_loop_nmea
  cases ev1
  · simp
  · rcases hq : s.nmea_queue with ⟨mx, msgs⟩
    cases msgs with
    | nil => simp [k_msgq_get, hq]
    | cons p rest =>
      simp only [if_true, k_msgq_get, hq, main_new_nmea, State.emit]
      split_ifs <;> simp

theorem agps_to_fetch_nmea_queue (b : Build) (env : AgpsEnv) (s : State) :
    (match agps_data_get_work_fn_to_fetch b env s with
      | AgpsReach.ignored s1 => s1
      | AgpsReach.blocked s1 => s1
      | AgpsReach.fetching s1 => s1).nmea_queue = s.nmea_queue := by
  unfold agps_data_get_work_fn_to_fetch lte_connect
  simp only [State.emit]
  split_ifs <;> rfl

theorem agps_from_fetch_nmea_queue (b : Build) (env : AgpsEnv) (s : State) :
    (agps_data_get_work_fn_from_fetch b env s).nmea_queue = s.nmea_queue := by
  unfold agps_data_get_work_fn_from_fetch lte_disconnect
  simp only [State.emit]
  split_ifs <;> rfl

theorem prepare_nmea_queue (b : Build) (env : PrepareEnv) (s : State) :
    (ttff_test_prepare_work_fn b env s).nmea_queue = s.nmea_queue := by
  unfold ttff_test_prepare_work_fn ttff_test_force_cold_start ttff_test_prepare_assistance
  simp only [State.emit]
  split_ifs <;> rfl

theorem start_nmea_queue (env : StartEnv) (s : State) :
    (ttff_test_start_work_fn env s).nmea_queue = s.nmea_queue := by
  unfold ttff_test_start_work_fn
  simp only [State.emit]
  split_ifs <;> rfl

theorem got_fix_nmea_queue (b : Build) (s : State) :
    (ttff_test_got_fix_work_fn b s).nmea_queue = s.nmea_queue := by
  unfold ttff_test_got_fix_work_fn
  simp only [State.emit]
  split_ifs <;> rfl

theorem step_nmea_queue (b : Build) (st : Step) (s : State)
    (hlen : s.nmea_queue.msgs.length ≤ s.nmea_queue.max_msgs) :
    (step b st s).nmea_queue.max_msgs = s.nmea_queue.max_msgs ∧
      (step b st s).nmea_queue.msgs.length ≤ s.nmea_queue.max_msgs := by
  cases st with
  | event env e =>
    by_cases he : e = GnssEvent.NRF_MODEM_GNSS_EVT_NMEA
    · subst he
      simp only [step, gnss_event_handler]
      rcases gnss_event_handler_nmea_queue env s with h | ⟨hlt, _, _, h⟩
      · rw [h]; exact ⟨rfl, hlen⟩
      · rw [h]; simp; omega
    · simp only [step]
      rw [event_nmea_queue_other b env e s he]
      exact ⟨rfl, hlen⟩
  | poll env =>
    simp only [step, main_loop_iteration]
    split
    · exact ⟨rfl, hlen⟩
    · have h1 := main_loop_nmea_queue b env (k_poll s).2 (main_loop_pvt b env (k_poll s).1 s).1
      rw [main_loop_pvt_nmea_queue] at h1
      exact ⟨h1.1, le_trans h1.2 hlen⟩
  | agps_to_fetch env =>
    simp only [step]
    rw [agps_to_fetch_nmea_queue]
    exact ⟨rfl, hlen⟩
  | agps_from_fetch env =>
    simp only [step]
    rw [agps_from_fetch_nmea_queue]
    exact ⟨rfl, hlen⟩
  | ttff_prepare env =>
    simp only [step]
    rw [prepare_nmea_queue]
    exact ⟨rfl, hlen⟩
  | ttff_start env =>
    simp only [step]
    rw [start_nmea_queue]
    exact ⟨rfl, hlen⟩
  | ttff_got_fix =>
    simp only [step]
    rw [got_fix_nmea_queue]
    exact ⟨rfl, hlen⟩

theorem run_nmea_queue (b : Build) (steps : List Step) (s : State)
    (hlen : s.nmea_queue.msgs.length ≤ s.nmea_queue.max_msgs) :
    (run b steps s).nmea_queue.max_msgs = s.nmea_queue.max_msgs ∧
      (run b steps s).nmea_queue.msgs.length ≤ s.nmea_queue.max_msgs := by
  induction steps generalizing s with
  | nil => exact ⟨rfl, hlen⟩
  | cons st rest ih =>
    rw [run_cons]
    have h := step_nmea_queue b st s hlen
    have h2 := ih (step b st s) (by rw [h.1]; exact h.2)
    rw [h.1] at h2
    exact h2

theorem gnss_event_handler_nmea_full (env : HandlerEnv) (s : State)
    (hfull : ¬ s.nmea_queue.msgs.length < s.nmea_queue.max_msgs) :
    (gnss_event_handler_nmea env s).nmea_queue = s.nmea_queue ∧
      (env.malloc_ok = true →
        (gnss_event_handler_nmea env s).trace = s.trace ++ [Ev.k_free s.heap.next]) := by
  unfold gnss_event_handler_nmea k_malloc
  cases hm : env.malloc_ok
  · exact ⟨rfl, by simp⟩
  · by_cases hr : env.read_retval = 0
    · simp [hr, hfull, k_msgq_put, ENOMSG]
    · simp [hr]

/-- C2 (frame queue bound).  From a state in which `nmea_queue` has capacity 10 and holds at
most 10 pointers, after every sequence of steps of the three contexts (events of every kind,
loop iterations, work items) the queue holds at most 10 pointers; and in a state reached with 10
pointers queued, `k_msgq_put` fails, and an `NRF_MODEM_GNSS_EVT_NMEA` event leaves the queue
(pointers and order) as it was and, when its buffer was allocated, releases that buffer. -/
theorem frame_queue_bound (b : Build) (s : State) (steps : List Step) (env : HandlerEnv)
    (hmax : s.nmea_queue.max_msgs = 10) (hlen : s.nmea_queue.msgs.length ≤ 10) :
    (run b steps s).nmea_queue.msgs.length ≤ 10 ∧
    ((run b steps s).nmea_queue.msgs.length = 10 →
      (∀ p, (k_msgq_put (run b steps s).nmea_queue p).1 = -ENOMSG) ∧
      (step b (Step.event env GnssEvent.NRF_MODEM_GNSS_EVT_NMEA) (run b steps s)).nmea_queue
        = (run b steps s).nmea_queue ∧
      (env.malloc_ok = true →
        (step b (Step.event env GnssEvent.NRF_MODEM_GNSS_EVT_NMEA) (run b steps s)).trace
          = (run b steps s).trace ++ [Ev.k_free (run b steps s).heap.next])) := by
  have h := run_nmea_queue b steps s (by rw [hmax]; exact hlen)
  rw [hmax] at h
  refine ⟨h.2, fun h10 => ?_⟩
  have hfull : ¬ (run b steps s).nmea_queue.msgs.length < (run b steps s).nmea_queue.max_msgs := by
    rw [h.1, h10]; exact lt_irrefl 10
  refine ⟨fun p => ?_, ?_⟩
  · simp [k_msgq_put, hfull]
  · exact gnss_event_handler_nmea_full env _ hfull

/-- Instance of C2: eleven NMEA events from the start state leave ten pointers queued, and a
twelfth one changes nothing in the queue. -/
theorem frame_queue_bound_witness :
    (run Build.sample (nmea_events (List.replicate 11 (HandlerEnv.ok 0 0 "$GPGGA" 0)))
      State.init).nmea_queue.msgs.length ≤ 10 ∧
    (step Build.sample (Step.event (HandlerEnv.ok 0 0 "$GPGGA" 0)
      GnssEvent.NRF_MODEM_GNSS_EVT_NMEA)
      (run Build.sample (nmea_events (List.replicate 11 (HandlerEnv.ok 0 0 "$GPGGA" 0)))
        State.init)).nmea_queue
      = (run Build.sample (nmea_events (List.replicate 11 (HandlerEnv.ok 0 0 "$GPGGA" 0)))
        State.init).nmea_queue :=
  have h := frame_queue_bound Build.sample State.init
    (nmea_events (List.replicate 11 (HandlerEnv.ok 0 0 "$GPGGA" 0)))
    (HandlerEnv.ok 0 0 "$GPGGA" 0) rfl (by decide)
  ⟨h.1, (h.2 (by decide)).2.1⟩

/-! ## Bursts of frames -/

theorem nmea_event_space (b : Build) (env : HandlerEnv) (s : State)
    (hwf : ∀ e ∈ s.heap.live, e.1 < s.heap.next)
    (hm : env.malloc_ok = true) (hr : env.read_retval = 0)
    (hspace : s.nmea_queue.msgs.length < s.nmea_queue.max_msgs) :
    step b (Step.event env GnssEvent.NRF_MODEM_GNSS_EVT_NMEA) s =
      { s with heap := ⟨s.heap.next + 1, s.heap.live ++ [(s.heap.next, env.nmea)]⟩,
               nmea_queue := ⟨s.nmea_queue.max_msgs, s.nmea_queue.msgs ++ [s.heap.next]⟩ } := by
  have hmap : s.heap.live.map
      (fun e => if e.1 = s.heap.next then (s.heap.next, env.nmea) else e) = s.heap.live := by
    conv_rhs => rw [← List.map_id s.heap.live]
    apply List.map_congr_left
    intro e he
    have := hwf e he
    have hne : e.1 ≠ s.heap.next := by omega
    simp [hne]
  simp [step, gnss_event_handler, gnss_event_handler_nmea, k_malloc, hm, hr, k_msgq_put, hspace,
    Heap.store, hmap]

theorem nmea_event_full (b : Build) (env : HandlerEnv) (s : State)
    (hwf : ∀ e ∈ s.heap.live, e.1 < s.heap.next)
    (hm : env.malloc_ok = true) (hr : env.read_retval = 0)
    (hfull : ¬ s.nmea_queue.msgs.length < s.nmea_queue.max_msgs) :
    step b (Step.event env GnssEvent.NRF_MODEM_GNSS_EVT_NMEA) s =
      { s with heap := ⟨s.heap.next + 1, s.heap.live⟩,
               trace := s.trace ++ [Ev.k_free s.heap.next] } := by
  have hmap : s.heap.live.map
      (fun e => if e.1 = s.heap.next then (s.heap.next, env.nmea) else e) = s.heap.live := by
    conv_rhs => rw [← List.map_id s.heap.live]
    apply List.map_congr_left
    intro e he
    have := hwf e he
    have hne : e.1 ≠ s.heap.next := by omega
    simp [hne]
  have hfil : s.heap.live.filter (fun e => e.1 != s.heap.next) = s.heap.live := by
    apply List.filter_eq_self.mpr
    intro e he
    have := hwf e he
    have hne : e.1 ≠ s.heap.next := by omega
    simp [hne]
  simp [step, gnss_event_handler, gnss_event_handler_nmea, k_malloc, hm, hr, k_msgq_put, hfull,
    Heap.store, hmap, k_free, ENOMSG, List.filter_append, hfil]

theorem nmea_burst_fill (b : Build) (envs : List HandlerEnv) (s : State)
    (hwf : ∀ e ∈ s.heap.live, e.1 < s.heap.next)
    (hok : ∀ e ∈ envs, e.malloc_ok = true ∧ e.read_retval = 0)
    (hspace : s.nmea_queue.msgs.length + envs.length ≤ s.nmea_queue.max_msgs) :
    run b (nmea_events envs) s =
      { s with
        heap := ⟨s.heap.next + envs.length,
          s.heap.live ++ (List.range' s.heap.next envs.length).zip (envs.map (fun e => e.nmea))⟩,
        nmea_queue := ⟨s.nmea_queue.max_msgs,
          s.nmea_queue.msgs ++ List.range' s.heap.next envs.length⟩ } := by
  induction envs generalizing s with
  | nil => simp [nmea_events, run_nil]
  | cons e rest ih =>
    have he := hok e (by simp)
    simp only [List.length_cons] at hspace
    simp only [nmea_events, List.map_cons, run_cons]
    rw [nmea_event_space b e s hwf he.1 he.2 (by omega)]
    have := ih ({ s with
        heap := ⟨s.heap.next + 1, s.heap.live ++ [(s.heap.next, e.nmea)]⟩,
        nmea_queue := ⟨s.nmea_queue.max_msgs, s.nmea_queue.msgs ++ [s.heap.next]⟩ })
      (by
        intro x hx
        simp only [List.mem_append, List.mem_singleton] at hx
        rcases hx with hx | hx
        · have := hwf x hx
          simp only
          omega
        · subst hx
          simp)
      (fun x hx => hok x (by simp [hx]))
      (by simp; omega)
    simp only [nmea_events] at this
    rw [this]
    simp [List.range'_succ, Nat.add_assoc, Nat.add_comm 1]

theorem nmea_burst_drop (b : Build) (envs : List HandlerEnv) (s : State)
    (hwf : ∀ e ∈ s.heap.live, e.1 < s.heap.next)
    (hok : ∀ e ∈ envs, e.malloc_ok = true ∧ e.read_retval = 0)
    (hfull : ¬ s.nmea_queue.msgs.length < s.nmea_queue.max_msgs) :
    run b (nmea_events envs) s =
      { s with
        heap := ⟨s.heap.next + envs.length, s.heap.live⟩,
        trace := s.trace ++ (List.range' s.heap.next envs.length).map Ev.k_free } := by
  induction envs generalizing s with
  | nil => simp [nmea_events, run_nil]
  | cons e rest ih =>
    have he := hok e (by simp)
    simp only [nmea_events, List.map_cons, run_cons]
    rw [nmea_event_full b e s hwf he.1 he.2 hfull]
    have := ih ({ s with
        heap := ⟨s.heap.next + 1, s.heap.live⟩,
        trace := s.trace ++ [Ev.k_free s.heap.next] })
      (by
        intro x hx
        have := hwf x hx
        simp only
        omega)
      (fun x hx => hok x (by simp [hx]))
      hfull
    simp only [nmea_events] at this
    rw [this]
    simp [List.range'_succ, Nat.add_assoc, Nat.add_comm 1]

theorem main_new_pvt_heap (b : Build) (env : PollEnv) (s : State) :
    (main_new_pvt b env s).heap = s.heap := by
  unfold main_new_pvt main_render_pvt
  simp only [State.emit]
  split_ifs <;> rfl

theorem main_loop_pvt_heap (b : Build) (env : PollEnv) (ev0 : Bool) (s : State) :
    (main_loop_pvt b env ev0 s).1.heap = s.heap := by
  unfold main_loop_pvt
  dsimp only
  split_ifs <;> simp [main_new_pvt_heap]

theorem observations_poll (b : Build) (env : PollEnv) (rest : List Step) (s : State) :
    observations b (Step.poll env :: rest) s =
      (main_loop_iteration b env s).2 :: observations b rest (step b (Step.poll env) s) := rfl

theorem poll_dequeue (b : Build) (env : PollEnv) (s : State) (p : Nat) (rest : List Nat)
    (hq : s.nmea_queue.msgs = p :: rest) :
    (main_loop_iteration b env s).2.nmea = some (p, s.heap.load p) ∧
      (main_loop_iteration b env s).1.nmea_queue = ⟨s.nmea_queue.max_msgs, rest⟩ ∧
      (main_loop_iteration b env s).1.heap = k_free p s.heap := by
  have hq0 := main_loop_pvt_nmea_queue b env (k_poll s).1 s
  have hh0 := main_loop_pvt_heap b env (k_poll s).1 s
  have hev : (k_poll s).2 = true := by simp [k_poll, hq]
  simp only [main_loop_iteration, hev]
  simp only [Bool.not_true, Bool.and_false, Bool.false_eq_true, if_false]
  simp only [main_loop_nmea, if_true, k_msgq_get, hq0, hq, hh0, main_new_nmea, State.emit]
  split_ifs <;> simp [hh0]

theorem consume_frames (b : Build) (strs : List String) (ps : List PollEnv) (s : State)
    (n : Nat) (live : List (Nat × String))
    (hq : s.nmea_queue.msgs = List.range' n strs.length)
    (hl : s.heap.live = live ++ (List.range' n strs.length).zip strs)
    (hlt : ∀ e ∈ live, e.1 < n) (hps : ps.length = strs.length) :
    (observations b (ps.map Step.poll) s).map (fun o => o.nmea)
        = ((List.range' n strs.length).zip strs).map some ∧
      (run b (ps.map Step.poll) s).nmea_queue.msgs = [] ∧
      (run b (ps.map Step.poll) s).heap.live = live := by
  induction strs generalizing s n ps with
  | nil =>
    cases ps with
    | nil =>
      simp only [List.length_nil, List.range'_zero, List.zip_nil_left, List.append_nil] at hq hl
      simp [observations, run_nil, hq, hl]
    | cons _ _ => simp at hps
  | cons str strs ih =>
    cases ps with
    | nil => simp at hps
    | cons pe ps =>
      simp only [List.length_cons, List.range'_succ, List.zip_cons_cons] at hq hl
      simp only [List.length_cons, add_left_inj] at hps
      have hd := poll_dequeue b pe s n _ hq
      have hnone : live.find? (fun e => e.1 == n) = none := by
        apply List.find?_eq_none.mpr
        intro e he
        have := hlt e he
        have hne : e.1 ≠ n := by omega
        simp [hne]
      have hload : s.heap.load n = str := by
        simp [Heap.load, hl, List.find?_append, hnone]
      have hfree : (k_free n s.heap).live
          = live ++ (List.range' (n + 1) strs.length).zip strs := by
        have h1 : live.filter (fun e => e.1 != n) = live := by
          apply List.filter_eq_self.mpr
          intro e he
          have := hlt e he
          have hne : e.1 ≠ n := by omega
          simp [hne]
        have h2 : ((List.range' (n + 1) strs.length).zip strs).filter (fun e => e.1 != n)
            = (List.range' (n + 1) strs.length).zip strs := by
          apply List.filter_eq_self.mpr
          intro e he
          have hm := (List.of_mem_zip (a := e.1) (b := e.2) he).1
          have := (List.mem_range'_1.mp hm).1
          have hne : e.1 ≠ n := by omega
          simp [hne]
        simp [k_free, hl, List.filter_append, h1, h2]
      have hstep : step b (Step.poll pe) s = (main_loop_iteration b pe s).1 := rfl
      have := ih ps (step b (Step.poll pe) s) (n + 1)
        (by rw [hstep, hd.2.1])
        (by rw [hstep, hd.2.2, hfree])
        (fun e he => Nat.lt_succ_of_lt (hlt e he)) hps
      simp only [List.map_cons, observations_poll, run_cons, List.length_cons, List.range'_succ,
        List.zip_cons_cons]
      refine ⟨?_, this.2.1, this.2.2⟩
      rw [this.1, hd.1, hload]

theorem nmea_event_heap_wf (env : HandlerEnv) (s : State)
    (hwf : ∀ e ∈ s.heap.live, e.1 < s.heap.next) :
    ∀ e ∈ (gnss_event_handler_nmea env s).heap.live,
      e.1 < (gnss_event_handler_nmea env s).heap.next := by
  unfold gnss_event_handler_nmea k_malloc
  cases hm : env.malloc_ok
  · exact hwf
  · have hbase : ∀ str, ∀ e ∈ (Heap.store ⟨s.heap.next + 1, s.heap.live ++ [(s.heap.next, "")]⟩
        s.heap.next str).live, e.1 < s.heap.next + 1 := by
      intro str e he
      simp only [Heap.store, List.mem_map, List.mem_append, List.mem_singleton] at he
      obtain ⟨x, hx, rfl⟩ := he
      split_ifs
      · exact Nat.lt_succ_self _
      · rcases hx with hx | hx
        · exact Nat.lt_succ_of_lt (hwf x hx)
        · subst hx; exact Nat.lt_succ_self _
    have hnew : ∀ e ∈ s.heap.live ++ [(s.heap.next, "")], e.1 < s.heap.next + 1 := by
      intro e he
      simp only [List.mem_append, List.mem_singleton] at he
      rcases he with he | he
      · exact Nat.lt_succ_of_lt (hwf e he)
      · subst he; exact Nat.lt_succ_self _
    by_cases hr : env.read_retval = 0
    · by_cases hq : s.nmea_queue.msgs.length < s.nmea_queue.max_msgs
      · simpa [hr, hq, k_msgq_put] using hbase env.nmea
      · intro e he
        simp only [hr, hq, k_msgq_put, ENOMSG, k_free, beq_self_eq_true, if_true, if_false,
          bne_iff_ne, ne_eq, neg_eq_zero, OfNat.ofNat_ne_zero, not_false_eq_true] at he ⊢
        exact hbase env.nmea e (List.mem_of_mem_filter he)
    · intro e he
      simp only [hr, k_free, beq_iff_eq, if_false, bne_iff_ne, ne_eq, not_false_eq_true,
        if_true] at he ⊢
      exact hnew e (List.mem_of_mem_filter he)

theorem main_loop_nmea_heap_wf (b : Build) (env : PollEnv) (ev1 : Bool) (s : State)
    (hwf : ∀ e ∈ s.heap.live, e.1 < s.heap.next) :
    ∀ e ∈ (main_loop_nmea b env ev1 s).1.heap.live,
      e.1 < (main_loop_nmea b env ev1 s).1.heap.next := by
  unfold main_loop_nmea
  cases ev1
  · exact hwf
  · rcases hq : s.nmea_queue with ⟨mx, msgs⟩
    cases msgs with
    | nil => simpa [k_msgq_get, hq] using hwf
    | cons p rest =>
      simp only [if_true, k_msgq_get, hq, main_new_nmea, State.emit, k_free]
      intro e he
      split_ifs at he ⊢ <;> exact hwf e (List.mem_of_mem_filter he)

theorem step_heap_wf (b : Build) (st : Step) (s : State)
    (hwf : ∀ e ∈ s.heap.live, e.1 < s.heap.next) :
    ∀ e ∈ (step b st s).heap.live, e.1 < (step b st s).heap.next := by
  cases st with
  | event env ev =>
    cases ev
    · simp only [step, gnss_event_handler, gnss_event_handler_pvt]; split <;> exact hwf
    · simp only [step, gnss_event_handler, gnss_event_handler_fix]; split <;> exact hwf
    · exact nmea_event_heap_wf env s hwf
    · simp only [step, gnss_event_handler, gnss_event_handler_agps_req]
      split_ifs <;> exact hwf
    · exact hwf
  | poll env =>
    simp only [step, main_loop_iteration]
    split
    · exact hwf
    · exact main_loop_nmea_heap_wf b env _ _ (by rw [main_loop_pvt_heap]; exact hwf)
  | agps_to_fetch env =>
    simp only [step, agps_data_get_work_fn_to_fetch, lte_connect, State.emit, State.take_work]
    split_ifs <;> exact hwf
  | agps_from_fetch env =>
    simp only [step, agps_data_get_work_fn_from_fetch, lte_disconnect, State.emit]
    split_ifs <;> exact hwf
  | ttff_prepare env =>
    simp only [step, ttff_test_prepare_work_fn, ttff_test_force_cold_start,
      ttff_test_prepare_assistance, State.emit, State.take_work]
    split_ifs <;> exact hwf
  | ttff_start env =>
    simp only [step, ttff_test_start_work_fn, State.emit, State.take_work]
    split_ifs <;> exact hwf
  | ttff_got_fix =>
    simp only [step, ttff_test_got_fix_work_fn, State.emit, State.take_work]
    split_ifs <;> exact hwf

theorem run_heap_wf (b : Build) (steps : List Step) (s : State)
    (hwf : ∀ e ∈ s.heap.live, e.1 < s.heap.next) :
    ∀ e ∈ (run b steps s).heap.live, e.1 < (run b steps s).heap.next := by
  induction steps generalizing s with
  | nil => exact hwf
  | cons st rest ih => exact ih _ (step_heap_wf b st s hwf)

theorem nmea_burst (b : Build) (s : State) (envs : List HandlerEnv)
    (hempty : s.nmea_queue.msgs = [])
    (hwf : ∀ e ∈ s.heap.live, e.1 < s.heap.next)
    (hburst : s.nmea_queue.max_msgs < envs.length)
    (hok : ∀ e ∈ envs, e.malloc_ok = true ∧ e.read_retval = 0) :
    run b (nmea_events envs) s =
      { s with
        heap := ⟨s.heap.next + envs.length,
          s.heap.live ++ (List.range' s.heap.next s.nmea_queue.max_msgs).zip
            ((envs.take s.nmea_queue.max_msgs).map (fun e => e.nmea))⟩,
        nmea_queue := ⟨s.nmea_queue.max_msgs, List.range' s.heap.next s.nmea_queue.max_msgs⟩,
        trace := s.trace ++ (List.range' (s.heap.next + s.nmea_queue.max_msgs)
          (envs.length - s.nmea_queue.max_msgs)).map Ev.k_free } := by
  have hlen : (envs.take s.nmea_queue.max_msgs).length = s.nmea_queue.max_msgs := by
    rw [List.length_take]; omega
  have hsplit : nmea_events envs = nmea_events (envs.take s.nmea_queue.max_msgs)
      ++ nmea_events (envs.drop s.nmea_queue.max_msgs) := by
    simp only [nmea_events, ← List.map_append, List.take_append_drop]
  have h1 := nmea_burst_fill b (envs.take s.nmea_queue.max_msgs) s hwf
    (fun e he => hok e (List.mem_of_mem_take he)) (by rw [hempty, hlen]; simp)
  rw [hlen, hempty] at h1
  rw [hsplit, run_append, h1]
  rw [nmea_burst_drop b (envs.drop s.nmea_queue.max_msgs) _ ?_
    (fun e he => hok e (List.mem_of_mem_drop he)) (by simp)]
  · simp only [List.length_drop, List.nil_append, Nat.add_assoc]
    have : s.nmea_queue.max_msgs + (envs.length - s.nmea_queue.max_msgs) = envs.length := by
      omega
    rw [this]
  · intro e he
    simp only [List.mem_append] at he
    rcases he with he | he
    · have := hwf e he
      simp only
      omega
    · have hm := (List.of_mem_zip (a := e.1) (b := e.2) he).1
      have := (List.mem_range'_1.mp hm).2
      simpa using this

/-- C3 (burst drop policy and FIFO order).  From a state with an empty `nmea_queue` of capacity
N, a burst of k > N `NRF_MODEM_GNSS_EVT_NMEA` events whose allocation and read all succeed, with
no loop iteration in between (the i-th event of the burst gets the block `heap.next + i`):
the next N loop iterations dequeue exactly the blocks of the first N events, in arrival order,
each holding the string of its event; the queue is then empty; the burst released exactly the
k - N blocks of the last k - N events, after which the live blocks are those of the first N
events.  The hypothesis `hwf` (live blocks lie below `heap.next`) holds at program start and is
kept by every step (`run_heap_wf`). -/
theorem burst_drop_fifo (b : Build) (s : State) (envs : List HandlerEnv) (ps : List PollEnv)
    (hempty : s.nmea_queue.msgs = [])
    (hwf : ∀ e ∈ s.heap.live, e.1 < s.heap.next)
    (hburst : s.nmea_queue.max_msgs < envs.length)
    (hok : ∀ e ∈ envs, e.malloc_ok = true ∧ e.read_retval = 0)
    (hps : ps.length = s.nmea_queue.max_msgs) :
    (observations b (ps.map Step.poll) (run b (nmea_events envs) s)).map (fun o => o.nmea)
      = ((List.range' s.heap.next s.nmea_queue.max_msgs).zip
          ((envs.take s.nmea_queue.max_msgs).map (fun e => e.nmea))).map some ∧
    (run b (ps.map Step.poll) (run b (nmea_events envs) s)).nmea_queue.msgs = [] ∧
    (run b (nmea_events envs) s).trace
      = s.trace ++ (List.range' (s.heap.next + s.nmea_queue.max_msgs)
          (envs.length - s.nmea_queue.max_msgs)).map Ev.k_free ∧
    (run b (nmea_events envs) s).heap.live
      = s.heap.live ++ (List.range' s.heap.next s.nmea_queue.max_msgs).zip
          ((envs.take s.nmea_queue.max_msgs).map (fun e => e.nmea)) := by
  have hrun := nmea_burst b s envs hempty hwf hburst hok
  have hlen : ((envs.take s.nmea_queue.max_msgs).map (fun e => e.nmea)).length
      = s.nmea_queue.max_msgs := by
    rw [List.length_map, List.length_take]; omega
  have hc := consume_frames b ((envs.take s.nmea_queue.max_msgs).map (fun e => e.nmea)) ps
    (run b (nmea_events envs) s) s.heap.next s.heap.live
    (by rw [hrun, hlen]) (by rw [hrun, hlen]) hwf (by rw [hlen]; exact hps)
  rw [hlen] at hc
  refine ⟨hc.1, hc.2.1, ?_, ?_⟩
  · rw [hrun]
  · rw [hrun]

/-- Instance of C3, the scenario of the specification: capacity 3, frames A, B, C, D with no
consumption in between; the three dequeues return A, B, C and the block of D was released. -/
theorem burst_drop_fifo_witness :
    (observations Build.sample ([⟨0, false⟩, ⟨0, false⟩, ⟨0, false⟩].map Step.poll)
      (run Build.sample (nmea_events [HandlerEnv.ok 0 0 "A" 0, HandlerEnv.ok 0 0 "B" 0,
        HandlerEnv.ok 0 0 "C" 0, HandlerEnv.ok 0 0 "D" 0]) State.init3)).map (fun o => o.nmea)
      = [some (1, "A"), some (2, "B"), some (3, "C")] ∧
    (run Build.sample (nmea_events [HandlerEnv.ok 0 0 "A" 0, HandlerEnv.ok 0 0 "B" 0,
        HandlerEnv.ok 0 0 "C" 0, HandlerEnv.ok 0 0 "D" 0]) State.init3).trace = [Ev.k_free 4] :=
  have h := burst_drop_fifo Build.sample State.init3
    [HandlerEnv.ok 0 0 "A" 0, HandlerEnv.ok 0 0 "B" 0, HandlerEnv.ok 0 0 "C" 0,
      HandlerEnv.ok 0 0 "D" 0]
    [⟨0, false⟩, ⟨0, false⟩, ⟨0, false⟩] rfl (by simp [State.init3, State.init])
    (by decide) (by decide) rfl
  ⟨h.1, h.2.2.1⟩

/-! ## Ownership of frame buffers in the handler -/

/-- C4 (frame ownership in the dispatcher).  For every `NRF_MODEM_GNSS_EVT_NMEA` event in every
state: when `k_malloc` fails the queue and the heap are unchanged and nothing is released (only
the error is logged); when it succeeds with block `heap.next`, the block is appended to the queue
exactly when the read returns 0 and the queue has room, it is then live with the string read and
is not released, and in every other case (read failure or full queue) the queue is unchanged,
the block is released by exactly one `k_free` and is no longer live. -/
theorem frame_ownership (b : Build) (env : HandlerEnv) (s : State) :
    (env.malloc_ok = false →
      (step b (Step.event env GnssEvent.NRF_MODEM_GNSS_EVT_NMEA) s).nmea_queue = s.nmea_queue ∧
      (step b (Step.event env GnssEvent.NRF_MODEM_GNSS_EVT_NMEA) s).heap = s.heap ∧
      (step b (Step.event env GnssEvent.NRF_MODEM_GNSS_EVT_NMEA) s).trace
        = s.trace ++ [Ev.log LogMsg.failed_alloc_nmea]) ∧
    (env.malloc_ok = true →
      ((env.read_retval = 0 ∧ s.nmea_queue.msgs.length < s.nmea_queue.max_msgs) →
        (step b (Step.event env GnssEvent.NRF_MODEM_GNSS_EVT_NMEA) s).nmea_queue
          = ⟨s.nmea_queue.max_msgs, s.nmea_queue.msgs ++ [s.heap.next]⟩ ∧
        (step b (Step.event env GnssEvent.NRF_MODEM_GNSS_EVT_NMEA) s).trace = s.trace ∧
        (s.heap.next, env.nmea)
          ∈ (step b (Step.event env GnssEvent.NRF_MODEM_GNSS_EVT_NMEA) s).heap.live) ∧
      (¬ (env.read_retval = 0 ∧ s.nmea_queue.msgs.length < s.nmea_queue.max_msgs) →
        (step b (Step.event env GnssEvent.NRF_MODEM_GNSS_EVT_NMEA) s).nmea_queue = s.nmea_queue ∧
        (step b (Step.event env GnssEvent.NRF_MODEM_GNSS_EVT_NMEA) s).trace
          = s.trace ++ [Ev.k_free s.heap.next] ∧
        ∀ e ∈ (step b (Step.event env GnssEvent.NRF_MODEM_GNSS_EVT_NMEA) s).heap.live,
          e.1 ≠ s.heap.next)) := by
  simp only [step, gnss_event_handler]
  unfold gnss_event_handler_nmea k_malloc
  refine ⟨fun hm => ?_, fun hm => ⟨fun h => ?_, fun h => ?_⟩⟩
  · simp [hm, State.emit]
  · simp [hm, h.1, h.2, k_msgq_put, Heap.store]
  · by_cases hr : env.read_retval = 0
    · have hfull : ¬ s.nmea_queue.msgs.length < s.nmea_queue.max_msgs := fun hl => h ⟨hr, hl⟩
      simp [hm, hr, hfull, k_msgq_put, ENOMSG, k_free]
    · simp [hm, hr, k_free]

/-! ## The TTFF prepare work item -/

/-- Counterexample to C5 as stated: in the sample build a run of the prepare work item in which
stopping the receiver fails (`nrf_modem_gnss_stop` returns -1, the purge succeeds) still submits
the start work item. -/
theorem ttff_prepare_stop_failure_submits_start :
    (⟨-1, 0, 0, 0⟩ : PrepareEnv).stop_err ≠ 0 ∧
    (WorkItem.ttff_test_start_work, 0)
      ∈ (ttff_test_prepare_work_fn Build.sample ⟨-1, 0, 0, 0⟩ State.init).gnss_work_q := by
  decide

/-- C5 as amended (TTFF prepare failure).  In a build with cold start, a run of the prepare work
item in which the purge of the stored navigation data fails (`nrf_modem_gnss_nv_data_delete`
returns non-zero) submits nothing: the work queue is as before, so no start work item is
submitted for that cycle, whatever `nrf_modem_gnss_stop` returned. -/
theorem ttff_prepare_purge_failure (b : Build) (env : PrepareEnv) (s : State)
    (hcold : b.CONFIG_GNSS_SAMPLE_MODE_TTFF_TEST_COLD_START = true)
    (hdel : env.delete_err ≠ 0) :
    (ttff_test_prepare_work_fn b env s).gnss_work_q = s.gnss_work_q ∧
    (ttff_test_prepare_work_fn b env s).trace
      = s.trace ++ [Ev.nrf_modem_gnss_stop, Ev.log LogMsg.deleting_gnss_data,
          Ev.nrf_modem_gnss_nv_data_delete (ttff_test_delete_mask b),
          Ev.log LogMsg.failed_delete_gnss_data] := by
  simp [ttff_test_prepare_work_fn, ttff_test_force_cold_start, hcold, hdel, State.emit]

/-- Instance of amended C5: in the sample build a failed purge leaves the work queue empty. -/
theorem ttff_prepare_purge_failure_witness :
    (ttff_test_prepare_work_fn Build.sample ⟨0, -1, 0, 0⟩ State.init).gnss_work_q = [] :=
  (ttff_prepare_purge_failure Build.sample ⟨0, -1, 0, 0⟩ State.init rfl (by decide)).1

/-! ## The blocked-sample counter and the time to fix -/

theorem observations_other (b : Build) (st : Step) (rest : List Step) (s : State)
    (hpoll : ∀ env, st ≠ Step.poll env) :
    observations b (st :: rest) s = observations b rest (step b st s) := by
  cases st <;> first | rfl | exact absurd rfl (hpoll _)

theorem gnss_event_handler_counters (b : Build) (env : HandlerEnv) (e : GnssEvent) (s : State) :
    (gnss_event_handler b env e s).time_blocked = s.time_blocked ∧
      (gnss_event_handler b env e s).fix_timestamp = s.fix_timestamp := by
  cases e
  · simp only [gnss_event_handler, gnss_event_handler_pvt]; split <;> exact ⟨rfl, rfl⟩
  · simp only [gnss_event_handler, gnss_event_handler_fix]; split <;> exact ⟨rfl, rfl⟩
  · simp only [gnss_event_handler, gnss_event_handler_nmea, k_malloc, State.emit]
    cases env.malloc_ok
    · exact ⟨rfl, rfl⟩
    · simp only [if_true]
      split_ifs <;> exact ⟨rfl, rfl⟩
  · simp only [gnss_event_handler, gnss_event_handler_agps_req]; split_ifs <;> exact ⟨rfl, rfl⟩
  · exact ⟨rfl, rfl⟩

theorem agps_to_fetch_counters (b : Build) (env : AgpsEnv) (s : State) :
    (match agps_data_get_work_fn_to_fetch b env s with
      | AgpsReach.ignored s1 => s1
      | AgpsReach.blocked s1 => s1
      | AgpsReach.fetching s1 => s1).time_blocked = s.time_blocked ∧
    (match agps_data_get_work_fn_to_fetch b env s with
      | AgpsReach.ignored s1 => s1
      | AgpsReach.blocked s1 => s1
      | AgpsReach.fetching s1 => s1).fix_timestamp = s.fix_timestamp := by
  unfold agps_data_get_work_fn_to_fetch lte_connect
  simp only [State.emit]
  split_ifs <;> exact ⟨rfl, rfl⟩

theorem agps_from_fetch_counters (b : Build) (env : AgpsEnv) (s : State) :
    (agps_data_get_work_fn_from_fetch b env s).time_blocked = s.time_blocked ∧
      (agps_data_get_work_fn_from_fetch b env s).fix_timestamp = s.fix_timestamp := by
  unfold agps_data_get_work_fn_from_fetch lte_disconnect
  simp only [State.emit]
  split_ifs <;> exact ⟨rfl, rfl⟩

theorem prepare_counters (b : Build) (env : PrepareEnv) (s : State) :
    (ttff_test_prepare_work_fn b env s).time_blocked = s.time_blocked ∧
      (ttff_test_prepare_work_fn b env s).fix_timestamp = s.fix_timestamp := by
  unfold ttff_test_prepare_work_fn ttff_test_force_cold_start ttff_test_prepare_assistance
  simp only [State.emit]
  split_ifs <;> exact ⟨rfl, rfl⟩

theorem got_fix_counters (b : Build) (s : State) :
    (ttff_test_got_fix_work_fn b s).time_blocked = s.time_blocked ∧
      (ttff_test_got_fix_work_fn b s).fix_timestamp = s.fix_timestamp := by
  unfold ttff_test_got_fix_work_fn
  simp only [State.emit]
  split_ifs <;> exact ⟨rfl, rfl⟩

theorem start_failed_counters (env : StartEnv) (s : State) (h : env.start_err ≠ 0) :
    (ttff_test_start_work_fn env s).time_blocked = s.time_blocked ∧
      (ttff_test_start_work_fn env s).fix_timestamp = s.fix_timestamp := by
  simp [ttff_test_start_work_fn, h, State.emit]

theorem step_counters_other (b : Build) (st : Step) (s : State)
    (hpoll : ∀ env, st ≠ Step.poll env) (hstart : st.is_start_ok = false) :
    (step b st s).time_blocked = s.time_blocked ∧
      (step b st s).fix_timestamp = s.fix_timestamp := by
  cases st with
  | event env e => exact gnss_event_handler_counters b env e s
  | poll env => exact absurd rfl (hpoll env)
  | agps_to_fetch env => exact agps_to_fetch_counters b env _
  | agps_from_fetch env => exact agps_from_fetch_counters b env s
  | ttff_prepare env => exact prepare_counters b env _
  | ttff_start env =>
    simp only [Step.is_start_ok, beq_eq_false_iff_ne, ne_eq] at hstart
    exact start_failed_counters env _ hstart
  | ttff_got_fix => exact got_fix_counters b _

theorem main_loop_nmea_counters (b : Build) (env : PollEnv) (ev1 : Bool) (s : State) :
    (main_loop_nmea b env ev1 s).1.time_blocked = s.time_blocked ∧
      (main_loop_nmea b env ev1 s).1.fix_timestamp = s.fix_timestamp := by
  unfold main_loop_nmea
  cases ev1
  · exact ⟨rfl, rfl⟩
  · rcases hq : s.nmea_queue with ⟨mx, msgs⟩
    cases msgs with
    | nil => simp [k_msgq_get, hq]
    | cons p rest =>
      simp only [if_true, k_msgq_get, hq, main_new_nmea, State.emit]
      split_ifs <;> exact ⟨rfl, rfl⟩

theorem main_render_pvt_counters (b : Build) (env : PollEnv) (s : State) :
    (main_render_pvt b env s).time_blocked = s.time_blocked ∧
    (main_render_pvt b env s).fix_timestamp =
      (if pvt_flag s.last_pvt b.NRF_MODEM_GNSS_PVT_FLAG_FIX_VALID then env.uptime % 2 ^ 64
        else s.fix_timestamp) := by
  unfold main_render_pvt
  simp only [State.emit]
  split_ifs <;> exact ⟨rfl, rfl⟩

theorem main_new_pvt_counters (b : Build) (env : PollEnv) (s : State) :
    (main_new_pvt b env s).time_blocked =
      (if b.CONFIG_GNSS_SAMPLE_MODE_TTFF_TEST &&
          pvt_flag s.last_pvt b.NRF_MODEM_GNSS_PVT_FLAG_DEADLINE_MISSED &&
          !(!b.CONFIG_GNSS_SAMPLE_NMEA_ONLY && !output_paused b env s)
        then (s.time_blocked + 1) % 2 ^ 32 else s.time_blocked) ∧
    (main_new_pvt b env s).fix_timestamp =
      (if (!b.CONFIG_GNSS_SAMPLE_NMEA_ONLY && !output_paused b env s) &&
          pvt_flag s.last_pvt b.NRF_MODEM_GNSS_PVT_FLAG_FIX_VALID
        then env.uptime % 2 ^ 64 else s.fix_timestamp) := by
  unfold main_new_pvt
  by_cases hr : (!b.CONFIG_GNSS_SAMPLE_NMEA_ONLY && !output_paused b env s) = true
  · rw [if_pos hr, hr]
    have h := main_render_pvt_counters b env s
    rw [h.1, h.2]
    simp
  · rw [if_neg hr]
    have hr2 : (!b.CONFIG_GNSS_SAMPLE_NMEA_ONLY && !output_paused b env s) = false := by
      simpa using hr
    rw [hr2]
    cases b.CONFIG_GNSS_SAMPLE_MODE_TTFF_TEST <;>
      cases pvt_flag s.last_pvt b.NRF_MODEM_GNSS_PVT_FLAG_DEADLINE_MISSED <;> simp

theorem main_loop_pvt_obs (b : Build) (env : PollEnv) (ev0 : Bool) (s : State) :
    ((main_loop_pvt b env ev0 s).2 = some s.last_pvt ∧
      (main_loop_pvt b env ev0 s).1
        = main_new_pvt b env { s with pvt_data_sem := (k_sem_take s.pvt_data_sem).2 }) ∨
    ((main_loop_pvt b env ev0 s).2 = none ∧
      (main_loop_pvt b env ev0 s).1.time_blocked = s.time_blocked ∧
      (main_loop_pvt b env ev0 s).1.fix_timestamp = s.fix_timestamp) := by
  unfold main_loop_pvt
  cases ev0
  · right; exact ⟨rfl, rfl, rfl⟩
  · by_cases hr : (k_sem_take s.pvt_data_sem).1 = 0
    · left; simp [hr]
    · right; simp [hr]

theorem poll_counters (b : Build) (env : PollEnv) (s : State)
    (htb : s.time_blocked < 2 ^ 32) :
    (step b (Step.poll env) s).time_blocked =
      (s.time_blocked + (if b.CONFIG_GNSS_SAMPLE_MODE_TTFF_TEST then
        blocked_updates b [(main_loop_iteration b env s).2] else 0)) % 2 ^ 32 ∧
    (step b (Step.poll env) s).fix_timestamp =
      (if (main_loop_iteration b env s).2.rendered b &&
          (main_loop_iteration b env s).2.has_flag b.NRF_MODEM_GNSS_PVT_FLAG_FIX_VALID
        then env.uptime % 2 ^ 64 else s.fix_timestamp) := by
  have hmod : s.time_blocked % 2 ^ 32 = s.time_blocked := Nat.mod_eq_of_lt htb
  have hmod2 : s.time_blocked % 4294967296 = s.time_blocked := hmod
  simp only [step, main_loop_iteration]
  split
  · simp [blocked_updates, PollObs.has_flag, PollObs.rendered, hmod, hmod2]
  · have h1 := main_loop_nmea_counters b env (k_poll s).2 (main_loop_pvt b env (k_poll s).1 s).1
    rw [h1.1, h1.2]
    rcases main_loop_pvt_obs b env (k_poll s).1 s with ⟨ho, hs⟩ | ⟨ho, ht, hf⟩
    · have h0 := main_new_pvt_counters b env
        { s with pvt_data_sem := (k_sem_take s.pvt_data_sem).2 }
      have hp : output_paused b env { s with pvt_data_sem := (k_sem_take s.pvt_data_sem).2 }
          = output_paused b env s := rfl
      rw [hp] at h0
      rw [hs, h0.1, h0.2]
      simp only [blocked_updates, List.filter_cons, List.filter_nil, PollObs.has_flag,
        PollObs.rendered, ho, Option.isSome_some, Bool.true_and]
      constructor
      · cases b.CONFIG_GNSS_SAMPLE_MODE_TTFF_TEST <;>
          cases pvt_flag s.last_pvt b.NRF_MODEM_GNSS_PVT_FLAG_DEADLINE_MISSED <;>
          cases (!b.CONFIG_GNSS_SAMPLE_NMEA_ONLY && !output_paused b env s) <;> simp [hmod, hmod2]
      · trivial
    · rw [ht, hf]
      simp [blocked_updates, PollObs.has_flag, PollObs.rendered, ho, hmod, hmod2]

theorem blocked_updates_cons (b : Build) (o : PollObs) (obs : List PollObs) :
    blocked_updates b (o :: obs) = blocked_updates b [o] + blocked_updates b obs := by
  simp only [blocked_updates, List.filter_cons, List.filter_nil]
  split_ifs
  · simp only [List.length_cons, List.length_nil]
    omega
  · simp

theorem run_time_blocked (b : Build) (hT : b.CONFIG_GNSS_SAMPLE_MODE_TTFF_TEST = true)
    (steps : List Step) (s : State) (htb : s.time_blocked < 2 ^ 32)
    (hns : ∀ st ∈ steps, st.is_start_ok = false) :
    (run b steps s).time_blocked
      = (s.time_blocked + blocked_updates b (observations b steps s)) % 2 ^ 32 := by
  induction steps generalizing s with
  | nil => simpa [run_nil, observations, blocked_updates] using (Nat.mod_eq_of_lt htb).symm
  | cons st rest ih =>
    have hrest : ∀ x ∈ rest, x.is_start_ok = false := fun x hx => hns x (by simp [hx])
    rw [run_cons]
    by_cases hp : ∃ env, st = Step.poll env
    · obtain ⟨env, rfl⟩ := hp
      have hc := (poll_counters b env s htb).1
      rw [hT, if_pos rfl] at hc
      rw [observations_poll, blocked_updates_cons,
        ih _ (by rw [hc]; exact Nat.mod_lt _ (by norm_num)) hrest, hc]
      omega
    · have hp2 : ∀ env, st ≠ Step.poll env := fun env h => hp ⟨env, h⟩
      have hc := (step_counters_other b st s hp2 (hns st (by simp))).1
      rw [observations_other b st rest s hp2, ih _ (by rw [hc]; exact htb) hrest, hc]

theorem got_fix_trace (b : Build) (s : State) :
    (step b Step.ttff_got_fix s).trace
      = s.trace ++ [Ev.log (LogMsg.time_to_fix s.time_to_fix)]
        ++ (if 0 < s.time_blocked then [Ev.log (LogMsg.time_blocked s.time_blocked)] else [])
        ++ [Ev.log (LogMsg.sleeping_for b.CONFIG_GNSS_SAMPLE_MODE_TTFF_TEST_INTERVAL)] := by
  simp only [step, ttff_test_got_fix_work_fn, State.emit, State.take_work]
  split_ifs <;> simp

/-- The value of the counter in every TTFF build (in support of C6).  After a run of the start
work item in which the receiver starts, and any further steps of the three contexts that contain
no other such run, `time_blocked` equals, modulo 2^32, the number of fix updates consumed by the
loop since then that carry the "deadline missed" flag and were handled by the branch that counts
(the NMEA-only option is set or the output was paused in that iteration).  The updates the code
fails to count are exactly the flagged ones it renders.  The report work item logs the value
when it is positive. -/
theorem blocked_counter_counts_unrendered (b : Build) (senv : StartEnv) (steps : List Step)
    (s : State) (hT : b.CONFIG_GNSS_SAMPLE_MODE_TTFF_TEST = true) (hok : senv.start_err = 0)
    (hns : ∀ st ∈ steps, st.is_start_ok = false) :
    (run b (Step.ttff_start senv :: steps) s).time_blocked
      = blocked_updates b (observations b (Step.ttff_start senv :: steps) s) % 2 ^ 32 ∧
    (step b Step.ttff_got_fix (run b (Step.ttff_start senv :: steps) s)).trace
      = (run b (Step.ttff_start senv :: steps) s).trace
        ++ [Ev.log (LogMsg.time_to_fix (run b (Step.ttff_start senv :: steps) s).time_to_fix)]
        ++ (if 0 < blocked_updates b (observations b (Step.ttff_start senv :: steps) s) % 2 ^ 32
            then [Ev.log (LogMsg.time_blocked
              (blocked_updates b (observations b (Step.ttff_start senv :: steps) s) % 2 ^ 32))]
            else [])
        ++ [Ev.log (LogMsg.sleeping_for b.CONFIG_GNSS_SAMPLE_MODE_TTFF_TEST_INTERVAL)] := by
  have h0 : (step b (Step.ttff_start senv) s).time_blocked = 0 := by
    simp [step, ttff_test_start_work_fn, hok, State.emit]
  have hrun := run_time_blocked b hT steps (step b (Step.ttff_start senv) s)
    (by rw [h0]; norm_num) hns
  rw [h0, Nat.zero_add] at hrun
  have hobs : observations b (Step.ttff_start senv :: steps) s
      = observations b steps (step b (Step.ttff_start senv) s) := rfl
  rw [run_cons, hobs, got_fix_trace, hrun]
  exact ⟨rfl, rfl⟩

/-- Instance of the above: in the sample build (NMEA-only output) one flagged update consumed
after the start work item is counted once, as C6 states. -/
theorem blocked_counter_counts_unrendered_witness :
    (run Build.sample
      (Step.ttff_start ⟨0, 1000⟩ ::
        [Step.event (HandlerEnv.ok 8 0 "" 0) GnssEvent.NRF_MODEM_GNSS_EVT_PVT,
          Step.poll ⟨2000, false⟩]) State.init).time_blocked = 1 :=
  (blocked_counter_counts_unrendered Build.sample ⟨0, 1000⟩
    [Step.event (HandlerEnv.ok 8 0 "" 0) GnssEvent.NRF_MODEM_GNSS_EVT_PVT,
      Step.poll ⟨2000, false⟩] State.init rfl rfl (by decide)).1.trans (by decide)

theorem poll_fix_timestamp (b : Build) (env : PollEnv) (s : State) :
    (step b (Step.poll env) s).fix_timestamp =
      (if (main_loop_iteration b env s).2.rendered b &&
          (main_loop_iteration b env s).2.has_flag b.NRF_MODEM_GNSS_PVT_FLAG_FIX_VALID
        then env.uptime % 2 ^ 64 else s.fix_timestamp) := by
  simp only [step, main_loop_iteration]
  split
  · simp [PollObs.has_flag, PollObs.rendered]
  · have h1 := main_loop_nmea_counters b env (k_poll s).2 (main_loop_pvt b env (k_poll s).1 s).1
    rw [h1.2]
    rcases main_loop_pvt_obs b env (k_poll s).1 s with ⟨ho, hs⟩ | ⟨ho, _, hf⟩
    · have h0 := main_new_pvt_counters b env
        { s with pvt_data_sem := (k_sem_take s.pvt_data_sem).2 }
      have hp : output_paused b env { s with pvt_data_sem := (k_sem_take s.pvt_data_sem).2 }
          = output_paused b env s := rfl
      rw [hp] at h0
      rw [hs, h0.2]
      simp only [PollObs.has_flag, PollObs.rendered, ho, Option.isSome_some, Bool.true_and]
    · rw [hf]
      simp [PollObs.has_flag, PollObs.rendered, ho]

theorem run_fix_timestamp (b : Build) (steps : List Step) (s : State)
    (hns : ∀ st ∈ steps, st.is_start_ok = false)
    (hnr : ∀ o ∈ observations b steps s,
      (o.rendered b && o.has_flag b.NRF_MODEM_GNSS_PVT_FLAG_FIX_VALID) = false) :
    (run b steps s).fix_timestamp = s.fix_timestamp := by
  induction steps generalizing s with
  | nil => rfl
  | cons st rest ih =>
    have hrest : ∀ x ∈ rest, x.is_start_ok = false := fun x hx => hns x (by simp [hx])
    rw [run_cons]
    by_cases hp : ∃ env, st = Step.poll env
    · obtain ⟨env, rfl⟩ := hp
      rw [observations_poll] at hnr
      have hc := poll_fix_timestamp b env s
      rw [hnr _ (by simp)] at hc
      rw [ih _ hrest (fun o ho => hnr o (by simp [ho])), hc]
      simp
    · have hp2 : ∀ env, st ≠ Step.poll env := fun env h => hp ⟨env, h⟩
      have hc := (step_counters_other b st s hp2 (hns st (by simp))).2
      rw [observations_other b st rest s hp2] at hnr
      rw [ih _ hrest hnr, hc]

theorem fix_event_time_to_fix (b : Build) (henv : HandlerEnv) (s : State)
    (hT : b.CONFIG_GNSS_SAMPLE_MODE_TTFF_TEST = true) :
    (step b (Step.event henv GnssEvent.NRF_MODEM_GNSS_EVT_FIX) s).time_to_fix
      = (u64_sub henv.uptime s.fix_timestamp / 1000) % 2 ^ 32 := by
  simp only [step, gnss_event_handler, hT, if_true, gnss_event_handler_fix]

/-- Where the code computes the time to fix that C7 states (in support of C7).  In TTFF test
mode, after a run of the start work item in which the receiver starts at uptime `senv.uptime`,
and any further steps that contain no other such run and in which the loop renders no fix update
carrying the "fix valid" flag (it renders none at all when the NMEA-only option is set or the
output is paused), a milestone event at a later uptime `henv.uptime` (below 2^64 ms) stores in
`time_to_fix` the value (`henv.uptime` - `senv.uptime`) / 1000, truncated, modulo 2^32.  The
runs in which the code misses this value are those with such a rendering. -/
theorem time_to_fix_since_start (b : Build) (senv : StartEnv) (henv : HandlerEnv)
    (steps : List Step) (s : State)
    (hT : b.CONFIG_GNSS_SAMPLE_MODE_TTFF_TEST = true) (hok : senv.start_err = 0)
    (hns : ∀ st ∈ steps, st.is_start_ok = false)
    (hnr : ∀ o ∈ observations b (Step.ttff_start senv :: steps) s,
      (o.rendered b && o.has_flag b.NRF_MODEM_GNSS_PVT_FLAG_FIX_VALID) = false)
    (hmono : senv.uptime ≤ henv.uptime) (hrange : henv.uptime < 2 ^ 64) :
    (run b (Step.ttff_start senv :: steps ++
      [Step.event henv GnssEvent.NRF_MODEM_GNSS_EVT_FIX]) s).time_to_fix
      = ((henv.uptime - senv.uptime) / 1000) % 2 ^ 32 := by
  have h0 : (step b (Step.ttff_start senv) s).fix_timestamp = senv.uptime % 2 ^ 64 := by
    simp [step, ttff_test_start_work_fn, hok, State.emit]
  have hobs : observations b (Step.ttff_start senv :: steps) s
      = observations b steps (step b (Step.ttff_start senv) s) := rfl
  rw [hobs] at hnr
  have hrun := run_fix_timestamp b steps (step b (Step.ttff_start senv) s) hns hnr
  rw [h0] at hrun
  rw [run_append, run_cons, run_cons, run_nil, fix_event_time_to_fix b henv _ hT, hrun]
  have hsub : u64_sub henv.uptime (senv.uptime % 2 ^ 64) = henv.uptime - senv.uptime := by
    unfold u64_sub
    have h1 : senv.uptime < 2 ^ 64 := lt_of_le_of_lt hmono hrange
    rw [Nat.mod_eq_of_lt h1, Nat.mod_eq_of_lt h1, Nat.mod_eq_of_lt hrange]
    omega
  rw [hsub]

/-- Instance of the above: in the sample build (NMEA-only output) the steps of the failing
input give a time to fix of 5 s, as C7 states. -/
theorem time_to_fix_since_start_witness :
    (run Build.sample
      (Step.ttff_start ⟨0, 1000⟩ ::
        [Step.event (HandlerEnv.ok 1 0 "" 0) GnssEvent.NRF_MODEM_GNSS_EVT_PVT,
          Step.poll ⟨5000, false⟩] ++
        [Step.event (HandlerEnv.ok 0 0 "" 6000) GnssEvent.NRF_MODEM_GNSS_EVT_FIX])
      State.init).time_to_fix = 5 :=
  (time_to_fix_since_start Build.sample ⟨0, 1000⟩ (HandlerEnv.ok 0 0 "" 6000)
    [Step.event (HandlerEnv.ok 1 0 "" 0) GnssEvent.NRF_MODEM_GNSS_EVT_PVT,
      Step.poll ⟨5000, false⟩] State.init rfl rfl (by decide) (by decide) (by decide)
    (by decide)).trans (by decide)

/-! ## The assistance work item -/

theorem agps_to_fetch_ignored (b : Build) (env : AgpsEnv) (s : State)
    (hf : (b.CONFIG_GNSS_SAMPLE_ASSISTANCE_SUPL && agps_only_integrity b s.last_agps ||
      b.CONFIG_GNSS_SAMPLE_ASSISTANCE_MINIMAL && agps_no_time_or_position b s.last_agps) = true) :
    ∃ m, agps_data_get_work_fn_to_fetch b env s = AgpsReach.ignored (s.emit (Ev.log m)) := by
  unfold agps_data_get_work_fn_to_fetch
  by_cases h1 : (b.CONFIG_GNSS_SAMPLE_ASSISTANCE_SUPL && agps_only_integrity b s.last_agps) = true
  · exact ⟨_, by rw [if_pos h1]⟩
  · have h2 : (b.CONFIG_GNSS_SAMPLE_ASSISTANCE_MINIMAL &&
        agps_no_time_or_position b s.last_agps) = true := by
      simp only [Bool.or_eq_true] at hf
      exact hf.resolve_left h1
    exact ⟨_, by rw [if_neg h1, if_pos h2]⟩

theorem agps_to_fetch_proceeds (b : Build) (env : AgpsEnv) (s : State)
    (hf : (b.CONFIG_GNSS_SAMPLE_ASSISTANCE_SUPL && agps_only_integrity b s.last_agps ||
      b.CONFIG_GNSS_SAMPLE_ASSISTANCE_MINIMAL && agps_no_time_or_position b s.last_agps) = false) :
    ∃ s1, (agps_data_get_work_fn_to_fetch b env s = AgpsReach.fetching s1 ∨
        (agps_data_get_work_fn_to_fetch b env s = AgpsReach.blocked s1 ∧
          b.CONFIG_GNSS_SAMPLE_LTE_ON_DEMAND = true ∧ env.lte_activate_err = 0 ∧
          env.lte_registered = false)) ∧
      s1.requesting_assistance = true ∧ s1.last_agps = s.last_agps ∧
      assistance_requests s1.trace = assistance_requests s.trace := by
  simp only [Bool.or_eq_false_iff] at hf
  unfold agps_data_get_work_fn_to_fetch
  rw [if_neg (by simp [hf.1]), if_neg (by simp [hf.2])]
  cases hl : b.CONFIG_GNSS_SAMPLE_LTE_ON_DEMAND
  · exact ⟨_, Or.inl rfl, rfl, rfl, by simp [assistance_requests, State.emit]⟩
  · refine ⟨(lte_connect env (({ s with requesting_assistance := true }).emit
      (Ev.log (LogMsg.assistance_needed s.last_agps.sv_mask_ephe s.last_agps.sv_mask_alm
        s.last_agps.data_flags)))).1, ?_, ?_, ?_, ?_⟩
    · by_cases ha : env.lte_activate_err = 0
      · cases hreg : env.lte_registered
        · right
          simp [lte_connect, ha, hreg]
        · left
          simp [lte_connect, ha, hreg]
      · left
        simp [lte_connect, ha]
    · unfold lte_connect
      simp only [State.emit]
      split_ifs <;> rfl
    · unfold lte_connect
      simp only [State.emit]
      split_ifs <;> rfl
    · unfold lte_connect
      simp only [State.emit]
      split_ifs <;> simp [assistance_requests, List.filterMap_append]

theorem agps_from_fetch_effect (b : Build) (env : AgpsEnv) (s : State) :
    (agps_data_get_work_fn_from_fetch b env s).requesting_assistance = false ∧
      assistance_requests (agps_data_get_work_fn_from_fetch b env s).trace
        = assistance_requests s.trace ++ [s.last_agps] ∧
      ∃ rest, (agps_data_get_work_fn_from_fetch b env s).trace
        = s.trace ++ Ev.assistance_request s.last_agps :: rest := by
  unfold agps_data_get_work_fn_from_fetch lte_disconnect
  refine ⟨rfl, ?_, ?_⟩
  · simp only [State.emit]
    split_ifs <;> simp [assistance_requests, List.filterMap_append]
  · simp only [State.emit]
    split_ifs <;> simp

theorem agps_work_calls (b : Build) (env : AgpsEnv) (s : State)
    (hret : b.CONFIG_GNSS_SAMPLE_LTE_ON_DEMAND = true → env.lte_activate_err = 0 →
      env.lte_registered = true) :
    ∃ s2, agps_data_get_work_fn b env s = some s2 ∧ s2.requesting_assistance
        = ((b.CONFIG_GNSS_SAMPLE_ASSISTANCE_SUPL && agps_only_integrity b s.last_agps ||
          b.CONFIG_GNSS_SAMPLE_ASSISTANCE_MINIMAL && agps_no_time_or_position b s.last_agps)
          && s.requesting_assistance) ∧
      assistance_requests s2.trace = assistance_requests s.trace ++
        (if (b.CONFIG_GNSS_SAMPLE_ASSISTANCE_SUPL && agps_only_integrity b s.last_agps ||
          b.CONFIG_GNSS_SAMPLE_ASSISTANCE_MINIMAL && agps_no_time_or_position b s.last_agps)
          = true then [] else [s.last_agps]) := by
  cases hf : (b.CONFIG_GNSS_SAMPLE_ASSISTANCE_SUPL && agps_only_integrity b s.last_agps ||
      b.CONFIG_GNSS_SAMPLE_ASSISTANCE_MINIMAL && agps_no_time_or_position b s.last_agps)
  · obtain ⟨s1, hreach, hreq, hlast, htr⟩ := agps_to_fetch_proceeds b env s hf
    rcases hreach with hreach | ⟨_, hl, ha, hreg⟩
    · have he := agps_from_fetch_effect b env s1
      refine ⟨agps_data_get_work_fn_from_fetch b env s1, ?_, ?_, ?_⟩
      · simp [agps_data_get_work_fn, hreach]
      · simp [he.1]
      · rw [he.2.1, htr, hlast]; simp
    · rw [hret hl ha] at hreg
      exact absurd hreg (by decide)
  · obtain ⟨m, hm⟩ := agps_to_fetch_ignored b env s hf
    refine ⟨s.emit (Ev.log m), ?_, ?_, ?_⟩
    · simp [agps_data_get_work_fn, hm]
    · simp [State.emit]
    · simp [State.emit, assistance_requests, List.filterMap_append]

/-- C10 (assistance-in-progress indicator).  For a run of `agps_data_get_work_fn` entered with
`requesting_assistance` false: when the run returns the indicator is false, and `output_paused`
is then false unless the assistance library itself is active; the run returns whenever the wait
of `lte_connect` ends; in the state in which `assistance_request` is entered the indicator is
true, and that call is the next action; a filtered request leaves the state as at entry but for
one log line, so it never sets the indicator. -/
theorem assistance_indicator (b : Build) (env : AgpsEnv) (s : State)
    (h0 : s.requesting_assistance = false) :
    (∀ s2, agps_data_get_work_fn b env s = some s2 →
      s2.requesting_assistance = false ∧
      ∀ penv : PollEnv, penv.assistance_is_active = false → output_paused b penv s2 = false) ∧
    ((b.CONFIG_GNSS_SAMPLE_LTE_ON_DEMAND = true → env.lte_activate_err = 0 →
        env.lte_registered = true) →
      ∃ s2, agps_data_get_work_fn b env s = some s2) ∧
    (∀ s1, agps_data_get_work_fn_to_fetch b env s = AgpsReach.fetching s1 →
      s1.requesting_assistance = true ∧
      ∃ rest, (agps_data_get_work_fn_from_fetch b env s1).trace
        = s1.trace ++ Ev.assistance_request s1.last_agps :: rest) ∧
    (∀ s1, agps_data_get_work_fn_to_fetch b env s = AgpsReach.ignored s1 →
      ∃ m, s1 = s.emit (Ev.log m)) := by
  have hpaused : ∀ s2 : State, s2.requesting_assistance = false →
      ∀ penv : PollEnv, penv.assistance_is_active = false → output_paused b penv s2 = false := by
    intro s2 h2 penv hp
    simp [output_paused, h2, hp]
  refine ⟨?_, fun hret => ?_, ?_, ?_⟩
  · intro s2 hs2
    cases hf : (b.CONFIG_GNSS_SAMPLE_ASSISTANCE_SUPL && agps_only_integrity b s.last_agps ||
        b.CONFIG_GNSS_SAMPLE_ASSISTANCE_MINIMAL && agps_no_time_or_position b s.last_agps)
    · obtain ⟨s1, hreach, _, _, _⟩ := agps_to_fetch_proceeds b env s hf
      rcases hreach with hreach | ⟨hreach, _⟩
      · simp only [agps_data_get_work_fn, hreach, Option.some.injEq] at hs2
        subst hs2
        exact ⟨(agps_from_fetch_effect b env s1).1,
          hpaused _ (agps_from_fetch_effect b env s1).1⟩
      · simp [agps_data_get_work_fn, hreach] at hs2
    · obtain ⟨m, hm⟩ := agps_to_fetch_ignored b env s hf
      simp only [agps_data_get_work_fn, hm, Option.some.injEq] at hs2
      subst hs2
      exact ⟨h0, hpaused _ h0⟩
  · obtain ⟨s2, hs2, _⟩ := agps_work_calls b env s hret
    exact ⟨s2, hs2⟩
  · intro s1 hs1
    cases hf : (b.CONFIG_GNSS_SAMPLE_ASSISTANCE_SUPL && agps_only_integrity b s.last_agps ||
        b.CONFIG_GNSS_SAMPLE_ASSISTANCE_MINIMAL && agps_no_time_or_position b s.last_agps)
    · obtain ⟨s1x, hreach, hreq, _, _⟩ := agps_to_fetch_proceeds b env s hf
      rcases hreach with hreach | ⟨hreach, _⟩
      · rw [hreach] at hs1
        cases hs1
        exact ⟨hreq, (agps_from_fetch_effect b env _).2.2⟩
      · rw [hreach] at hs1
        cases hs1
    · obtain ⟨m, hm⟩ := agps_to_fetch_ignored b env s hf
      rw [hm] at hs1
      cases hs1
  · intro s1 hs1
    cases hf : (b.CONFIG_GNSS_SAMPLE_ASSISTANCE_SUPL && agps_only_integrity b s.last_agps ||
        b.CONFIG_GNSS_SAMPLE_ASSISTANCE_MINIMAL && agps_no_time_or_position b s.last_agps)
    · obtain ⟨s1x, hreach, _, _, _⟩ := agps_to_fetch_proceeds b env s hf
      rcases hreach with hreach | ⟨hreach, _⟩ <;> rw [hreach] at hs1 <;> cases hs1
    · obtain ⟨m, hm⟩ := agps_to_fetch_ignored b env s hf
      rw [hm] at hs1
      cases hs1
      exact ⟨m, rfl⟩

/-- Instance of C10: in the sample build a request for everything, entered with the indicator
false, is fetched and the run returns with the indicator false again. -/
theorem assistance_indicator_witness :
    ∃ s2, agps_data_get_work_fn Build.sample ⟨0, true, 0, 0⟩
        { State.init with last_agps := ⟨0xffffffff, 0xffffffff, 0x3b⟩ } = some s2 ∧
      s2.requesting_assistance = false :=
  have h := assistance_indicator Build.sample ⟨0, true, 0, 0⟩
    { State.init with last_agps := ⟨0xffffffff, 0xffffffff, 0x3b⟩ } rfl
  (h.2.1 (fun _ _ => rfl)).elim (fun s2 hs => ⟨s2, hs, (h.1 s2 hs).1⟩)

/-! ## The TTFF cycle -/

theorem ttff_entries_any (q : k_work_q) (w : WorkItem) (hw : w ≠ WorkItem.agps_data_get_work) :
    q.any (fun e => e.1 == w) = (ttff_entries q).any (fun e => e.1 == w) := by
  unfold ttff_entries
  rw [List.any_filter]
  congr 1
  funext e
  by_cases h : e.1 = w
  · simp [h, hw]
  · simp [h]

theorem ttff_entries_schedule (q : k_work_q) (w : WorkItem) (d : Nat)
    (hw : w ≠ WorkItem.agps_data_get_work) :
    ttff_entries (k_work_schedule_for_queue q w d) =
      k_work_schedule_for_queue (ttff_entries q) w d := by
  unfold k_work_schedule_for_queue
  rw [← ttff_entries_any q w hw]
  split
  · rfl
  · simp [ttff_entries, List.filter_append, hw]

theorem ttff_entries_submit (q : k_work_q) (w : WorkItem)
    (hw : w ≠ WorkItem.agps_data_get_work) :
    ttff_entries (k_work_submit_to_queue q w) = k_work_submit_to_queue (ttff_entries q) w :=
  ttff_entries_schedule q w 0 hw

theorem ttff_entries_submit_agps (q : k_work_q) :
    ttff_entries (k_work_submit_to_queue q WorkItem.agps_data_get_work) = ttff_entries q := by
  unfold k_work_submit_to_queue
  split
  · rfl
  · simp [ttff_entries, List.filter_append]

theorem ttff_entries_take (q : k_work_q) (w : WorkItem) :
    ttff_entries (k_work_q_take q w) = k_work_q_take (ttff_entries q) w := by
  simp only [ttff_entries, k_work_q_take, List.filter_filter]
  congr 1
  funext e
  exact Bool.and_comm _ _

theorem ttff_entries_take_agps (q : k_work_q) :
    ttff_entries (k_work_q_take q WorkItem.agps_data_get_work) = ttff_entries q := by
  simp only [ttff_entries, k_work_q_take, List.filter_filter, Bool.and_self]

theorem main_new_pvt_work_q (b : Build) (env : PollEnv) (s : State) :
    (main_new_pvt b env s).gnss_work_q = s.gnss_work_q := by
  unfold main_new_pvt main_render_pvt
  simp only [State.emit]
  split_ifs <;> rfl

theorem main_loop_pvt_work_q (b : Build) (env : PollEnv) (ev0 : Bool) (s : State) :
    (main_loop_pvt b env ev0 s).1.gnss_work_q = s.gnss_work_q := by
  unfold main_loop_pvt
  dsimp only
  split_ifs <;> simp [main_new_pvt_work_q]

theorem main_loop_nmea_work_q (b : Build) (env : PollEnv) (ev1 : Bool) (s : State) :
    (main_loop_nmea b env ev1 s).1.gnss_work_q = s.gnss_work_q := by
  unfold main_loop_nmea
  cases ev1
  · rfl
  · rcases hq : s.nmea_queue with ⟨mx, msgs⟩
    cases msgs with
    | nil => simp [k_msgq_get, hq]
    | cons p rest =>
      simp only [if_true, k_msgq_get, hq, main_new_nmea, State.emit]
      split_ifs <;> rfl

theorem poll_work_q (b : Build) (env : PollEnv) (s : State) :
    (step b (Step.poll env) s).gnss_work_q = s.gnss_work_q := by
  simp only [step, main_loop_iteration]
  split
  · rfl
  · rw [main_loop_nmea_work_q, main_loop_pvt_work_q]

theorem event_work_q (b : Build) (env : HandlerEnv) (e : GnssEvent) (s : State)
    (he : e ≠ GnssEvent.NRF_MODEM_GNSS_EVT_FIX) :
    ttff_entries (gnss_event_handler b env e s).gnss_work_q = ttff_entries s.gnss_work_q := by
  cases e
  · simp only [gnss_event_handler, gnss_event_handler_pvt]; split <;> rfl
  · exact absurd rfl he
  · simp only [gnss_event_handler, gnss_event_handler_nmea, k_malloc, State.emit]
    cases env.malloc_ok
    · rfl
    · simp only [if_true]
      split_ifs <;> rfl
  · simp only [gnss_event_handler, gnss_event_handler_agps_req]
    split_ifs
    · exact ttff_entries_submit_agps _
    · rfl
    · rfl
  · rfl

theorem agps_to_fetch_work_q (b : Build) (env : AgpsEnv) (s : State) :
    (match agps_data_get_work_fn_to_fetch b env s with
      | AgpsReach.ignored s1 => s1
      | AgpsReach.blocked s1 => s1
      | AgpsReach.fetching s1 => s1).gnss_work_q = s.gnss_work_q := by
  unfold agps_data_get_work_fn_to_fetch lte_connect
  simp only [State.emit]
  split_ifs <;> rfl

theorem agps_from_fetch_work_q (b : Build) (env : AgpsEnv) (s : State) :
    (agps_data_get_work_fn_from_fetch b env s).gnss_work_q = s.gnss_work_q := by
  unfold agps_data_get_work_fn_from_fetch lte_disconnect
  simp only [State.emit]
  split_ifs <;> rfl

theorem step_neutral_entries (b : Build) (st : Step) (s : State) (hn : st.is_neutral = true) :
    ttff_entries (step b st s).gnss_work_q = ttff_entries s.gnss_work_q := by
  cases st with
  | event env e =>
    simp only [Step.is_neutral, bne_iff_ne, ne_eq] at hn
    exact event_work_q b env e s hn
  | poll env => rw [poll_work_q]
  | agps_to_fetch env =>
    simp only [step]
    rw [agps_to_fetch_work_q]
    exact ttff_entries_take_agps _
  | agps_from_fetch env =>
    simp only [step]
    rw [agps_from_fetch_work_q]
  | ttff_prepare env => simp [Step.is_neutral] at hn
  | ttff_start env => simp [Step.is_neutral] at hn
  | ttff_got_fix => simp [Step.is_neutral] at hn

theorem run_neutral_entries (b : Build) (steps : List Step) (s : State)
    (hn : ∀ st ∈ steps, st.is_neutral = true) :
    ttff_entries (run b steps s).gnss_work_q = ttff_entries s.gnss_work_q := by
  induction steps generalizing s with
  | nil => rfl
  | cons st rest ih =>
    rw [run_cons, ih _ (fun x hx => hn x (by simp [hx])),
      step_neutral_entries b st s (hn st (by simp))]

theorem init_entries (b : Build) (s : State)
    (hT : b.CONFIG_GNSS_SAMPLE_MODE_TTFF_TEST = true) :
    (gnss_init_and_start b InitEnv.ok s).1 = 0 ∧
      ttff_entries (gnss_init_and_start b InitEnv.ok s).2.gnss_work_q
        = k_work_schedule_for_queue (ttff_entries s.gnss_work_q)
            WorkItem.ttff_test_prepare_work K_NO_WAIT := by
  have hfix : ∀ s0 : State, (gnss_init_and_start_fix b InitEnv.ok s0).1 = 0 ∧
      ttff_entries (gnss_init_and_start_fix b InitEnv.ok s0).2.gnss_work_q
        = k_work_schedule_for_queue (ttff_entries s0.gnss_work_q)
            WorkItem.ttff_test_prepare_work K_NO_WAIT := by
    intro s0
    have e5 : InitEnv.ok.fix_retry_err = 0 := rfl
    have e6 : InitEnv.ok.fix_interval_err = 0 := rfl
    unfold gnss_init_and_start_fix
    simp only [e5, e6, bne_self_eq_false, Bool.false_eq_true, if_false, hT, if_true, State.emit]
    exact ⟨trivial, ttff_entries_schedule _ _ _ (by decide)⟩
  have hconf : ∀ s0 : State, (gnss_init_and_start_configure b InitEnv.ok s0).1 = 0 ∧
      ttff_entries (gnss_init_and_start_configure b InitEnv.ok s0).2.gnss_work_q
        = k_work_schedule_for_queue (ttff_entries s0.gnss_work_q)
            WorkItem.ttff_test_prepare_work K_NO_WAIT := by
    intro s0
    have e1 : InitEnv.ok.event_handler_err = 0 := rfl
    have e2 : InitEnv.ok.nmea_mask_err = 0 := rfl
    have e3 : InitEnv.ok.use_case_err = 0 := rfl
    have e4 : InitEnv.ok.power_mode_err = 0 := rfl
    unfold gnss_init_and_start_configure
    simp only [e1, e2, e3, e4, bne_self_eq_false, Bool.false_eq_true, if_false]
    split
    · exact hfix _
    · exact hfix _
  have e0 : InitEnv.ok.func_mode_err = 0 := rfl
  unfold gnss_init_and_start
  simp only [e0, bne_self_eq_false, Bool.false_eq_true, if_false]
  split
  · exact hconf _
  · exact hconf _

theorem prepare_entries (b : Build) (penv : PrepareEnv) (s : State)
    (hprep : b.CONFIG_GNSS_SAMPLE_MODE_TTFF_TEST_COLD_START = true → penv.delete_err = 0) :
    ttff_entries (step b (Step.ttff_prepare penv) s).gnss_work_q
      = k_work_submit_to_queue
          (k_work_q_take (ttff_entries s.gnss_work_q) WorkItem.ttff_test_prepare_work)
          WorkItem.ttff_test_start_work := by
  simp only [step, ttff_test_prepare_work_fn, ttff_test_force_cold_start,
    ttff_test_prepare_assistance, State.emit, State.take_work]
  cases hc : b.CONFIG_GNSS_SAMPLE_MODE_TTFF_TEST_COLD_START
  · cases b.CONFIG_GNSS_SAMPLE_ASSISTANCE_NONE <;>
      simp [ttff_entries_submit, ttff_entries_take]
  · have hd := hprep hc
    cases b.CONFIG_GNSS_SAMPLE_ASSISTANCE_NONE <;>
      simp [hd, ttff_entries_submit, ttff_entries_take, ttff_entries_submit_agps]

theorem start_entries (b : Build) (senv : StartEnv) (s : State) :
    ttff_entries (step b (Step.ttff_start senv) s).gnss_work_q
      = k_work_q_take (ttff_entries s.gnss_work_q) WorkItem.ttff_test_start_work := by
  simp only [step, ttff_test_start_work_fn, State.emit, State.take_work]
  split_ifs <;> exact ttff_entries_take _ _

theorem fix_entries (b : Build) (henv : HandlerEnv) (s : State)
    (hT : b.CONFIG_GNSS_SAMPLE_MODE_TTFF_TEST = true) :
    ttff_entries (step b (Step.event henv GnssEvent.NRF_MODEM_GNSS_EVT_FIX) s).gnss_work_q
      = k_work_schedule_for_queue
          (k_work_schedule_for_queue (ttff_entries s.gnss_work_q)
            WorkItem.ttff_test_got_fix_work (K_MSEC 100))
          WorkItem.ttff_test_prepare_work
          (K_SECONDS b.CONFIG_GNSS_SAMPLE_MODE_TTFF_TEST_INTERVAL) := by
  simp only [step, gnss_event_handler, hT, if_true, gnss_event_handler_fix]
  rw [ttff_entries_schedule _ _ _ (by decide), ttff_entries_schedule _ _ _ (by decide)]

theorem got_fix_entries (b : Build) (s : State) :
    ttff_entries (step b Step.ttff_got_fix s).gnss_work_q
      = k_work_q_take (ttff_entries s.gnss_work_q) WorkItem.ttff_test_got_fix_work := by
  simp only [step, ttff_test_got_fix_work_fn, State.emit, State.take_work]
  split_ifs <;> exact ttff_entries_take _ _

/-- C9 (TTFF cycle scheduling).  In TTFF test mode, from a state with no TTFF work item
pending: `gnss_init_and_start` (every call succeeding) submits the prepare work item without
delay; after the prepare work item has run with success only the start work item is pending;
after the start work item has run none is pending; the milestone event `NRF_MODEM_GNSS_EVT_FIX`
then schedules exactly the report work item with a delay of 100 ms and the prepare work item with
a delay of CONFIG_GNSS_SAMPLE_MODE_TTFF_TEST_INTERVAL * 1000 ms; and after the report work item
has run exactly that prepare work item is pending, so neither the milestone handler nor the
report work item schedules a start work item or a second prepare work item.  Between these
steps any other events, loop iterations and runs of the assistance work item may occur
(`pre0`, `pre`, `mid`, `post`). -/
theorem ttff_cycle_scheduling (b : Build) (s : State) (penv : PrepareEnv) (senv : StartEnv)
    (henv : HandlerEnv) (pre0 pre mid post : List Step)
    (hT : b.CONFIG_GNSS_SAMPLE_MODE_TTFF_TEST = true)
    (hq : ttff_entries s.gnss_work_q = [])
    (hprep : b.CONFIG_GNSS_SAMPLE_MODE_TTFF_TEST_COLD_START = true → penv.delete_err = 0)
    (hstart : senv.start_err = 0)
    (h0 : ∀ st ∈ pre0, st.is_neutral = true) (h1 : ∀ st ∈ pre, st.is_neutral = true)
    (h2 : ∀ st ∈ mid, st.is_neutral = true) (h3 : ∀ st ∈ post, st.is_neutral = true) :
    (gnss_init_and_start b InitEnv.ok s).1 = 0 ∧
    ttff_entries (gnss_init_and_start b InitEnv.ok s).2.gnss_work_q
      = [(WorkItem.ttff_test_prepare_work, 0)] ∧
    ttff_entries (run b (pre0 ++ [Step.ttff_prepare penv] ++ pre)
      (gnss_init_and_start b InitEnv.ok s).2).gnss_work_q
      = [(WorkItem.ttff_test_start_work, 0)] ∧
    ttff_entries (run b (pre0 ++ [Step.ttff_prepare penv] ++ pre ++ [Step.ttff_start senv] ++ mid)
      (gnss_init_and_start b InitEnv.ok s).2).gnss_work_q = [] ∧
    (run b (pre0 ++ [Step.ttff_prepare penv] ++ pre ++ [Step.ttff_start senv])
      (gnss_init_and_start b InitEnv.ok s).2).fix_timestamp = senv.uptime % 2 ^ 64 ∧
    ttff_entries (run b (pre0 ++ [Step.ttff_prepare penv] ++ pre ++ [Step.ttff_start senv] ++ mid
        ++ [Step.event henv GnssEvent.NRF_MODEM_GNSS_EVT_FIX])
      (gnss_init_and_start b InitEnv.ok s).2).gnss_work_q
      = [(WorkItem.ttff_test_got_fix_work, 100),
          (WorkItem.ttff_test_prepare_work,
            b.CONFIG_GNSS_SAMPLE_MODE_TTFF_TEST_INTERVAL * 1000)] ∧
    ttff_entries (run b (pre0 ++ [Step.ttff_prepare penv] ++ pre ++ [Step.ttff_start senv] ++ mid
        ++ [Step.event henv GnssEvent.NRF_MODEM_GNSS_EVT_FIX] ++ post ++ [Step.ttff_got_fix])
      (gnss_init_and_start b InitEnv.ok s).2).gnss_work_q
      = [(WorkItem.ttff_test_prepare_work,
            b.CONFIG_GNSS_SAMPLE_MODE_TTFF_TEST_INTERVAL * 1000)] := by
  have hi := init_entries b s hT
  rw [hq] at hi
  have e1 : ttff_entries (gnss_init_and_start b InitEnv.ok s).2.gnss_work_q
      = [(WorkItem.ttff_test_prepare_work, 0)] := by rw [hi.2]; rfl
  have e2 : ttff_entries (run b (pre0 ++ [Step.ttff_prepare penv] ++ pre)
      (gnss_init_and_start b InitEnv.ok s).2).gnss_work_q
      = [(WorkItem.ttff_test_start_work, 0)] := by
    rw [run_append, run_append, run_cons, run_nil, run_neutral_entries b pre _ h1,
      prepare_entries b penv _ hprep, run_neutral_entries b pre0 _ h0, e1]
    rfl
  have e3 : ttff_entries (run b
      (pre0 ++ [Step.ttff_prepare penv] ++ pre ++ [Step.ttff_start senv] ++ mid)
      (gnss_init_and_start b InitEnv.ok s).2).gnss_work_q = [] := by
    rw [run_append, run_append, run_cons, run_nil, run_neutral_entries b mid _ h2,
      start_entries, e2]
    rfl
  have e4 : ttff_entries (run b
      (pre0 ++ [Step.ttff_prepare penv] ++ pre ++ [Step.ttff_start senv] ++ mid
        ++ [Step.event henv GnssEvent.NRF_MODEM_GNSS_EVT_FIX])
      (gnss_init_and_start b InitEnv.ok s).2).gnss_work_q
      = [(WorkItem.ttff_test_got_fix_work, 100),
          (WorkItem.ttff_test_prepare_work,
            b.CONFIG_GNSS_SAMPLE_MODE_TTFF_TEST_INTERVAL * 1000)] := by
    rw [run_append, run_cons, run_nil, fix_entries b henv _ hT, e3]
    rfl
  refine ⟨hi.1, e1, e2, e3, ?_, e4, ?_⟩
  · rw [run_append, run_cons, run_nil]
    simp [step, ttff_test_start_work_fn, hstart, State.emit]
  · rw [run_append, run_append, run_cons, run_nil, got_fix_entries,
      run_neutral_entries b post _ h3, e4]
    rfl

/-- Instance of C9: the sample build from the start state, with a PVT event and a loop iteration
between the start work item and the milestone event. -/
theorem ttff_cycle_scheduling_witness :
    ttff_entries (run Build.sample
      ([] ++ [Step.ttff_prepare ⟨0, 0, 0, 0⟩] ++ [] ++ [Step.ttff_start ⟨0, 1000⟩]
        ++ [Step.event (HandlerEnv.ok 1 0 "" 0) GnssEvent.NRF_MODEM_GNSS_EVT_PVT,
            Step.poll ⟨5000, false⟩]
        ++ [Step.event (HandlerEnv.ok 0 0 "" 6000) GnssEvent.NRF_MODEM_GNSS_EVT_FIX])
      (gnss_init_and_start Build.sample InitEnv.ok State.init).2).gnss_work_q
      = [(WorkItem.ttff_test_got_fix_work, 100),
          (WorkItem.ttff_test_prepare_work, 120000)] :=
  (ttff_cycle_scheduling Build.sample State.init ⟨0, 0, 0, 0⟩ ⟨0, 1000⟩
    (HandlerEnv.ok 0 0 "" 6000) [] []
    [Step.event (HandlerEnv.ok 1 0 "" 0) GnssEvent.NRF_MODEM_GNSS_EVT_PVT,
      Step.poll ⟨5000, false⟩] [] rfl rfl (fun _ => rfl) rfl
    (by decide) (by decide) (by decide) (by decide)).2.2.2.2.2.1

/-! ## The forced assistance request of the TTFF test -/

end GnssSample
